import Mathlib

set_option linter.unusedVariables false

/-!
Shallow embedding of the security-dashboard report-normalization core
(`src/utils/parsers.py`) and of the risk-aggregation helpers in `src/app.py`
(`calculate_vulnerability_risk`, `calculate_severity_counts`), together with
proofs of the spec's claims about them.

Modelling conventions:
* JSON values are the inductive `Json`; Python `json.loads` is modelled by the
  `RawDoc` input type (`jsonDoc` = the text decodes to this value, `xmlDoc` =
  the text is not JSON but is well-formed XML, `neither` = both fail).
* Python's dynamic failures (AttributeError on `.get` of a non-dict, TypeError
  when iterating a number, failed `int()`/`float()` coercions, unhashable dict
  keys, string subscripts on lists) are explicit via `Except PyErr`.
* Python numbers are idealized as exact fractions `PyRat` (numerator/positive
  denominator, not normalized); Python `==`/`<`/`min` compare by value
  (`PyRat.eqv`, `PyRat.le`), exactly as the idealized floats do.
* `str.upper`/`str.lower` are modelled by Lean's ASCII case maps.
-/

/-- An unnormalized fraction `num / den` (denominator kept positive by every
    constructor below), the idealization of Python's int/float values. -/
structure PyRat where
  num : Int
  den : Nat
  deriving DecidableEq

/-- Embed an integer. -/
def PyRat.ofInt (n : Int) : PyRat := ⟨n, 1⟩

/-- Embed a natural number. -/
def PyRat.ofNat (n : Nat) : PyRat := ⟨(n : Int), 1⟩

/-- Value equality (cross-multiplication; denominators are positive). -/
def PyRat.eqv (a b : PyRat) : Bool :=
  a.num * (b.den : Int) == b.num * (a.den : Int)

/-- Value order `a ≤ b` (cross-multiplication; denominators are positive). -/
def PyRat.le (a b : PyRat) : Bool :=
  a.num * (b.den : Int) ≤ b.num * (a.den : Int)

/-- Value order `a < b`. -/
def PyRat.lt (a b : PyRat) : Bool :=
  a.num * (b.den : Int) < b.num * (a.den : Int)

/-- Addition. -/
def PyRat.add (a b : PyRat) : PyRat :=
  ⟨a.num * (b.den : Int) + b.num * (a.den : Int), a.den * b.den⟩

/-- Subtraction. -/
def PyRat.sub (a b : PyRat) : PyRat :=
  ⟨a.num * (b.den : Int) - b.num * (a.den : Int), a.den * b.den⟩

/-- Multiplication. -/
def PyRat.mul (a b : PyRat) : PyRat :=
  ⟨a.num * b.num, a.den * b.den⟩

/-- Division by a positive natural constant (the embedded code only ever
    divides by the literals 10/20/100, never by zero). -/
def PyRat.divNat (a : PyRat) (n : Nat) : PyRat :=
  ⟨a.num, a.den * n⟩

/-- Python `min(a, b)`: `a` when `a <= b`, else `b`. -/
def PyRat.pymin (a b : PyRat) : PyRat :=
  if a.le b then a else b

/-- Floor of the value (denominator positive). -/
def PyRat.floor (a : PyRat) : Int :=
  Int.fdiv a.num (a.den : Int)

/-- Truncation toward zero, as Python `int()` of a float. -/
def PyRat.trunc (a : PyRat) : Int :=
  Int.tdiv a.num (a.den : Int)

/-- Round the value to the nearest integer, ties to even (Python `round`). -/
def PyRat.roundHalfEven (x : PyRat) : Int :=
  let f := x.floor
  let r := x.sub (PyRat.ofInt f)
  if r.lt ⟨1, 2⟩ then f
  else if (PyRat.mk 1 2).lt r then f + 1
  else if f % 2 == 0 then f else f + 1

/-- Python `round(x, 1)` on the idealized value. -/
def PyRat.round1 (x : PyRat) : PyRat :=
  ⟨x.mul (PyRat.ofNat 10) |>.roundHalfEven, 10⟩

/-- A JSON value as produced by Python's `json.loads`: object keys are strings,
    field order is preserved and keys are unique. -/
inductive Json where
  | null : Json
  | bool : Bool → Json
  | num : PyRat → Json
  | str : String → Json
  | arr : List Json → Json
  | obj : List (String × Json) → Json

/- Manual decidable equality for the nested inductive `Json` (the `deriving`
   handler does not support nested inductives in this toolchain). -/
mutual

def decEqJ : (a b : Json) → Decidable (a = b)
  | .null, .null => isTrue rfl
  | .bool a, .bool b =>
    match decEq a b with
    | isTrue h => isTrue (h ▸ rfl)
    | isFalse h => isFalse (fun hh => h (Json.bool.inj hh))
  | .num a, .num b =>
    match decEq a b with
    | isTrue h => isTrue (h ▸ rfl)
    | isFalse h => isFalse (fun hh => h (Json.num.inj hh))
  | .str a, .str b =>
    match decEq a b with
    | isTrue h => isTrue (h ▸ rfl)
    | isFalse h => isFalse (fun hh => h (Json.str.inj hh))
  | .arr a, .arr b =>
    match decEqJL a b with
    | isTrue h => isTrue (h ▸ rfl)
    | isFalse h => isFalse (fun hh => h (Json.arr.inj hh))
  | .obj a, .obj b =>
    match decEqJO a b with
    | isTrue h => isTrue (h ▸ rfl)
    | isFalse h => isFalse (fun hh => h (Json.obj.inj hh))
  | .null, .bool _ => isFalse (fun h => Json.noConfusion h)
  | .null, .num _ => isFalse (fun h => Json.noConfusion h)
  | .null, .str _ => isFalse (fun h => Json.noConfusion h)
  | .null, .arr _ => isFalse (fun h => Json.noConfusion h)
  | .null, .obj _ => isFalse (fun h => Json.noConfusion h)
  | .bool _, .null => isFalse (fun h => Json.noConfusion h)
  | .bool _, .num _ => isFalse (fun h => Json.noConfusion h)
  | .bool _, .str _ => isFalse (fun h => Json.noConfusion h)
  | .bool _, .arr _ => isFalse (fun h => Json.noConfusion h)
  | .bool _, .obj _ => isFalse (fun h => Json.noConfusion h)
  | .num _, .null => isFalse (fun h => Json.noConfusion h)
  | .num _, .bool _ => isFalse (fun h => Json.noConfusion h)
  | .num _, .str _ => isFalse (fun h => Json.noConfusion h)
  | .num _, .arr _ => isFalse (fun h => Json.noConfusion h)
  | .num _, .obj _ => isFalse (fun h => Json.noConfusion h)
  | .str _, .null => isFalse (fun h => Json.noConfusion h)
  | .str _, .bool _ => isFalse (fun h => Json.noConfusion h)
  | .str _, .num _ => isFalse (fun h => Json.noConfusion h)
  | .str _, .arr _ => isFalse (fun h => Json.noConfusion h)
  | .str _, .obj _ => isFalse (fun h => Json.noConfusion h)
  | .arr _, .null => isFalse (fun h => Json.noConfusion h)
  | .arr _, .bool _ => isFalse (fun h => Json.noConfusion h)
  | .arr _, .num _ => isFalse (fun h => Json.noConfusion h)
  | .arr _, .str _ => isFalse (fun h => Json.noConfusion h)
  | .arr _, .obj _ => isFalse (fun h => Json.noConfusion h)
  | .obj _, .null => isFalse (fun h => Json.noConfusion h)
  | .obj _, .bool _ => isFalse (fun h => Json.noConfusion h)
  | .obj _, .num _ => isFalse (fun h => Json.noConfusion h)
  | .obj _, .str _ => isFalse (fun h => Json.noConfusion h)
  | .obj _, .arr _ => isFalse (fun h => Json.noConfusion h)

def decEqJL : (a b : List Json) → Decidable (a = b)
  | [], [] => isTrue rfl
  | [], _ :: _ => isFalse (fun h => List.noConfusion h)
  | _ :: _, [] => isFalse (fun h => List.noConfusion h)
  | a :: as, b :: bs =>
    match decEqJ a b with
    | isTrue h1 =>
      match decEqJL as bs with
      | isTrue h2 => isTrue (h1 ▸ h2 ▸ rfl)
      | isFalse h2 => isFalse (fun hh => h2 (List.cons.inj hh).2)
    | isFalse h1 => isFalse (fun hh => h1 (List.cons.inj hh).1)

def decEqJO : (a b : List (String × Json)) → Decidable (a = b)
  | [], [] => isTrue rfl
  | [], _ :: _ => isFalse (fun h => List.noConfusion h)
  | _ :: _, [] => isFalse (fun h => List.noConfusion h)
  | (k, a) :: as, (k', b) :: bs =>
    match decEq k k' with
    | isTrue hk =>
      match decEqJ a b with
      | isTrue h1 =>
        match decEqJO as bs with
        | isTrue h2 => isTrue (hk ▸ h1 ▸ h2 ▸ rfl)
        | isFalse h2 => isFalse (fun hh => h2 (List.cons.inj hh).2)
      | isFalse h1 => isFalse (fun hh => h1 (congrArg Prod.snd (List.cons.inj hh).1))
    | isFalse hk => isFalse (fun hh => hk (congrArg Prod.fst (List.cons.inj hh).1))

end

instance : DecidableEq Json := decEqJ

/-- Shorthand for an integer JSON number. -/
def jint (n : Int) : Json := .num (PyRat.ofInt n)


/-- Kernel-friendly `s.startswith(p)` on char lists. -/
def strStartsWith (s p : String) : Bool :=
  p.toList.isPrefixOf s.toList

/-- Kernel-friendly `s.endswith(p)` on char lists. -/
def strEndsWith (s p : String) : Bool :=
  p.toList.reverse.isPrefixOf s.toList.reverse

/-- Kernel-friendly ASCII `s.lower()`. -/
def strLower (s : String) : String :=
  .mk (s.toList.map Char.toLower)

/-- Kernel-friendly ASCII `s.upper()`. -/
def strUpper (s : String) : String :=
  .mk (s.toList.map Char.toUpper)

/-- Substring membership scan for `k in s` on strings. -/
def strContainsAux (k : List Char) : List Char → Bool
  | [] => k.isPrefixOf []
  | c :: rest => k.isPrefixOf (c :: rest) || strContainsAux k rest

/-- Kernel-friendly `k in s` on strings. -/
def strContains (s k : String) : Bool :=
  strContainsAux k.toList s.toList

/-- The Python exception kinds that the embedded code can raise. -/
inductive PyErr where
  | attributeError : PyErr
  | typeError : PyErr
  | keyError : PyErr
  | indexError : PyErr
  | valueError : PyErr
  deriving DecidableEq

/-- Python truthiness of a JSON value (`if x:`). -/
def Json.truthy : Json → Bool
  | .null => false
  | .bool b => b
  | .num q => !(q.eqv (PyRat.ofNat 0))
  | .str s => !s.toList.isEmpty
  | .arr l => !l.isEmpty
  | .obj l => !l.isEmpty

/-- Numeric view shared by Python `bool`/`int`/`float` (`True == 1`). -/
def Json.numOf : Json → Option PyRat
  | .bool b => some (if b then PyRat.ofNat 1 else PyRat.ofNat 0)
  | .num q => some q
  | _ => none

/- Python `==` on JSON values: numbers and booleans compare numerically,
   containers compare structurally (object comparison is order-sensitive here;
   the embedded code only ever compares scalars, where this is exact). -/
mutual

def pyEq : Json → Json → Bool
  | .null, .null => true
  | .str a, .str b => a == b
  | .arr a, .arr b => pyEqL a b
  | .obj a, .obj b => pyEqO a b
  | a, b =>
    match a.numOf, b.numOf with
    | some x, some y => x.eqv y
    | _, _ => false

def pyEqL : List Json → List Json → Bool
  | [], [] => true
  | a :: as, b :: bs => pyEq a b && pyEqL as bs
  | _, _ => false

def pyEqO : List (String × Json) → List (String × Json) → Bool
  | [], [] => true
  | (k, a) :: as, (k', b) :: bs => k == k' && pyEq a b && pyEqO as bs
  | _, _ => false

end

/-- Python hashability: scalars are hashable, lists and dicts are not. -/
def Json.hashable : Json → Bool
  | .arr _ => false
  | .obj _ => false
  | _ => true

/-- Python `x.get(k, d)` on a JSON value: AttributeError unless `x` is a dict. -/
def pyGetD (v : Json) (k : String) (d : Json) : Except PyErr Json :=
  match v with
  | .obj kvs => .ok ((kvs.lookup k).getD d)
  | _ => .error .attributeError

/-- Python `x.get(k)` (default `None`). -/
def pyGet (v : Json) (k : String) : Except PyErr Json :=
  pyGetD v k .null

/-- Python `x[k]` with a string key: KeyError on a dict without the key,
    TypeError on any non-dict. -/
def pySubscript (v : Json) (k : String) : Except PyErr Json :=
  match v with
  | .obj kvs =>
    match kvs.lookup k with
    | some x => .ok x
    | none => .error .keyError
  | _ => .error .typeError

/-- Python `for x in v`: lists yield elements, dicts yield their keys, strings yield
    one-character strings; other values raise TypeError. -/
def pyIter : Json → Except PyErr (List Json)
  | .arr l => .ok l
  | .obj kvs => .ok (kvs.map (fun p => .str p.1))
  | .str s => .ok (s.toList.map (fun c => .str (String.singleton c)))
  | _ => .error .typeError

/-- Python `len(v)`. -/
def pyLen : Json → Except PyErr Nat
  | .arr l => .ok l.length
  | .obj kvs => .ok kvs.length
  | .str s => .ok s.toList.length
  | _ => .error .typeError

/-- Python `v[0]`: first element of a list (IndexError when empty), first character of
    a string, KeyError on a dict (JSON keys are strings, never `0`). -/
def pyIndex0 : Json → Except PyErr Json
  | .arr (a :: _) => .ok a
  | .arr [] => .error .indexError
  | .str s =>
    match s.toList with
    | c :: _ => .ok (.str (String.singleton c))
    | [] => .error .indexError
  | .obj _ => .error .keyError
  | _ => .error .typeError

/-- Python `k in v`: key membership for dicts, element membership for lists,
    substring test for strings; TypeError otherwise. -/
def pyIn (k : String) (v : Json) : Except PyErr Bool :=
  match v with
  | .obj kvs => .ok (kvs.any (fun p => p.1 == k))
  | .arr l => .ok (l.any (fun x => pyEq x (.str k)))
  | .str s => .ok (strContains s k)
  | _ => .error .typeError

/-- Python `v.lower()`: AttributeError unless `v` is a string. -/
def pyLower : Json → Except PyErr String
  | .str s => .ok (strLower s)
  | _ => .error .attributeError

/-- Python `v.upper()`: AttributeError unless `v` is a string. -/
def pyUpper : Json → Except PyErr String
  | .str s => .ok (strUpper s)
  | _ => .error .attributeError

/-- Python whitespace accepted around numeric strings. -/
def isPySpace (c : Char) : Bool :=
  c = ' ' || c = '\t' || c = '\n' || c = '\r' || c = '\x0b' || c = '\x0c'

/-- Strip leading and trailing Python whitespace. -/
def pyStrip (s : String) : List Char :=
  ((s.toList.dropWhile isPySpace).reverse.dropWhile isPySpace).reverse

/-- Value of an all-digit character list. -/
def digitsVal : List Char → Nat :=
  List.foldl (fun a c => a * 10 + (c.toNat - 48)) 0

/-- A non-empty run of ASCII digits, or `none`. -/
def digitsOnly (cs : List Char) : Option Nat :=
  if cs.isEmpty then none
  else if cs.all Char.isDigit then some (digitsVal cs) else none

/-- Python `int(s)` on a string: optional whitespace and sign around a run of
    digits (digit-group underscores are not modelled). -/
def pyStrToInt (s : String) : Option Int :=
  match pyStrip s with
  | '+' :: rest => (digitsOnly rest).map Int.ofNat
  | '-' :: rest => (digitsOnly rest).map (fun n => -(n : Int))
  | rest => (digitsOnly rest).map Int.ofNat

/-- Mantissa of a Python float literal: `digits`, `digits.digits`, `.digits`
    or `digits.` (at least one digit overall). -/
def pyMantissa (cs : List Char) : Option PyRat :=
  match cs.splitOn '.' with
  | [intPart] => (digitsOnly intPart).map PyRat.ofNat
  | [intPart, fracPart] =>
    if intPart.isEmpty && fracPart.isEmpty then none
    else if intPart.all Char.isDigit && fracPart.all Char.isDigit then
      some ⟨(digitsVal intPart * 10 ^ fracPart.length + digitsVal fracPart : Nat),
            10 ^ fracPart.length⟩
    else none
  | _ => none

/-- Optionally-signed exponent digits. -/
def pyExpVal (cs : List Char) : Option Int :=
  match cs with
  | '+' :: rest => (digitsOnly rest).map Int.ofNat
  | '-' :: rest => (digitsOnly rest).map (fun n => -(n : Int))
  | rest => (digitsOnly rest).map Int.ofNat

/-- Scale a fraction by `10 ^ e`. -/
def scalePow10 (m : PyRat) (e : Int) : PyRat :=
  match e with
  | .ofNat k => ⟨m.num * (10 ^ k : Nat), m.den⟩
  | .negSucc k => ⟨m.num, m.den * 10 ^ (k + 1)⟩

/-- Unsigned Python float string: mantissa with optional `e`/`E` exponent. -/
def pyUFloat (cs : List Char) : Option PyRat :=
  match cs.splitOnP (fun c => c = 'e' || c = 'E') with
  | [mant] => pyMantissa mant
  | [mant, ex] =>
    match pyMantissa mant, pyExpVal ex with
    | some m, some e => some (scalePow10 m e)
    | _, _ => none
  | _ => none

/-- Python `float(s)` on a string (`inf`/`nan` and underscores not modelled;
    the embedded code never consumes them). -/
def pyStrToFloat (s : String) : Option PyRat :=
  match pyStrip s with
  | '+' :: rest => pyUFloat rest
  | '-' :: rest => (pyUFloat rest).map (fun m => ⟨-m.num, m.den⟩)
  | rest => pyUFloat rest

/-- Python `int(v)`: numbers truncate, booleans become 0/1, strings must be
    integer literals (ValueError otherwise), everything else is a TypeError. -/
def pyInt (v : Json) : Except PyErr Int :=
  match v with
  | .num q => .ok q.trunc
  | .bool b => .ok (if b then 1 else 0)
  | .str s =>
    match pyStrToInt s with
    | some n => .ok n
    | none => .error .valueError
  | _ => .error .typeError

/-- Python `float(v)`. -/
def pyFloat (v : Json) : Except PyErr PyRat :=
  match v with
  | .num q => .ok q
  | .bool b => .ok (if b then PyRat.ofNat 1 else PyRat.ofNat 0)
  | .str s =>
    match pyStrToFloat s with
    | some q => .ok q
    | none => .error .valueError
  | _ => .error .typeError

/-- Python `d[k] = v` on a Python dict with arbitrary (hashable) keys: replace in
    place on an existing `==`-equal key, else append. -/
def dsetPy (d : List (Json × Json)) (k v : Json) : List (Json × Json) :=
  match d with
  | [] => [(k, v)]
  | (k', v') :: rest =>
    if pyEq k' k then (k', v) :: rest else (k', v') :: dsetPy rest k v

/-- Python `d.get(k)` on a Python dict with arbitrary keys. -/
def dgetPy (d : List (Json × Json)) (k : Json) : Option Json :=
  (d.find? (fun p => pyEq p.1 k)).map (fun p => p.2)

/-- Python `d[k] = d.get(k, 0) + 1` on a counting dict. -/
def dincr (d : List (Json × Nat)) (k : Json) : List (Json × Nat) :=
  match d with
  | [] => [(k, 1)]
  | (k', n) :: rest =>
    if pyEq k' k then (k', n + 1) :: rest else (k', n) :: dincr rest k

/-- Sum of the values of a counting dict. -/
def countSum (d : List (Json × Nat)) : Nat :=
  (d.map (fun p => p.2)).sum

/-- Python `acc.add v` on a Python set, modelled with insertion order. -/
def setAdd (acc : List Json) (v : Json) : List Json :=
  if acc.any (fun x => pyEq x v) then acc else acc ++ [v]

example : pyEq (jint 1) (.bool true) = true := by decide
example : pyStrToInt "  5 " = some 5 := by decide
example : pyStrToInt "n/a" = none := by decide
example : pyStrToFloat "73.2" = some ⟨732, 10⟩ := by decide
example : (PyRat.mk 732 10).eqv ⟨366, 5⟩ = true := by decide
example : PyRat.round1 (PyRat.pymin (PyRat.ofNat 10) ⟨12, 10⟩) = ⟨12, 10⟩ := by decide

/-- An XML element as produced by `xml.etree.ElementTree`: a fully qualified
    tag (namespaced tags carry the `\x7buri\x7d` prefix), attributes, text and
    child elements. -/
inductive XmlElem where
  | mk (tag : String) (attrs : List (String × String)) (text : Option String)
       (children : List XmlElem)

/-- Tag accessor. -/
def XmlElem.tag : XmlElem → String
  | .mk t _ _ _ => t

/-- Attribute list accessor. -/
def XmlElem.attrs : XmlElem → List (String × String)
  | .mk _ a _ _ => a

/-- Text accessor (`None` when the element has no text). -/
def XmlElem.text : XmlElem → Option String
  | .mk _ _ x _ => x

/-- Children accessor. -/
def XmlElem.children : XmlElem → List XmlElem
  | .mk _ _ _ cs => cs

/-- Attribute lookup `elem.get(k, d)` with default. -/
def XmlElem.get (e : XmlElem) (k d : String) : String :=
  ((e.attrs.find? (fun p => p.1 == k)).map (fun p => p.2)).getD d

/- Manual decidable equality for the nested inductive `XmlElem`. -/
mutual

def decEqX : (a b : XmlElem) → Decidable (a = b)
  | .mk t a x cs, .mk t' a' x' cs' =>
    match decEq t t' with
    | isTrue ht =>
      match decEq a a' with
      | isTrue ha =>
        match decEq x x' with
        | isTrue hx =>
          match decEqXL cs cs' with
          | isTrue hc => isTrue (ht ▸ ha ▸ hx ▸ hc ▸ rfl)
          | isFalse hc => isFalse (fun hh => hc (XmlElem.mk.inj hh).2.2.2
            )
        | isFalse hx => isFalse (fun hh => hx (XmlElem.mk.inj hh).2.2.1)
      | isFalse ha => isFalse (fun hh => ha (XmlElem.mk.inj hh).2.1)
    | isFalse ht => isFalse (fun hh => ht (XmlElem.mk.inj hh).1)

def decEqXL : (a b : List XmlElem) → Decidable (a = b)
  | [], [] => isTrue rfl
  | [], _ :: _ => isFalse (fun h => List.noConfusion h)
  | _ :: _, [] => isFalse (fun h => List.noConfusion h)
  | a :: as, b :: bs =>
    match decEqX a b with
    | isTrue h1 =>
      match decEqXL as bs with
      | isTrue h2 => isTrue (h1 ▸ h2 ▸ rfl)
      | isFalse h2 => isFalse (fun hh => h2 (List.cons.inj hh).2)
    | isFalse h1 => isFalse (fun hh => h1 (List.cons.inj hh).1)

end

instance : DecidableEq XmlElem := decEqX

mutual

/-- ElementTree `elem.iter()`: the element followed by all descendants, document order. -/
def XmlElem.iterAll : XmlElem → List XmlElem
  | .mk t a x cs => .mk t a x cs :: iterAllL cs

/-- Iteration concatenated over a list of elements. -/
def iterAllL : List XmlElem → List XmlElem
  | [] => []
  | c :: cs => c.iterAll ++ iterAllL cs

end

/-- All proper descendants of an element, document order. -/
def XmlElem.descendants (e : XmlElem) : List XmlElem :=
  iterAllL e.children

/-- ElementTree `elem.findall('.//T')`: descendants with exactly the given tag. -/
def findDesc (e : XmlElem) (t : String) : List XmlElem :=
  e.descendants.filter (fun c => c.tag == t)

/-- ElementTree `elem.find('T')`: first direct child with the given tag. -/
def findChild (e : XmlElem) (t : String) : Option XmlElem :=
  e.children.find? (fun c => c.tag == t)

/-- Qualify a local tag with a namespace URI, ElementTree style. -/
def qual (uri t : String) : String :=
  "\x7b" ++ uri ++ "\x7d" ++ t

/-- The result of trying `json.loads` and then `ET.fromstring` on a raw text
    buffer: it decodes as JSON, or is well-formed XML, or is neither. -/
inductive RawDoc where
  | jsonDoc : Json → RawDoc
  | xmlDoc : XmlElem → RawDoc
  | neither : RawDoc
  deriving DecidableEq


/-- Decidable equality for `Except` results (not provided by the library). -/
instance {ε α : Type} [DecidableEq ε] [DecidableEq α] :
    DecidableEq (Except ε α) := fun a b =>
  match a, b with
  | .ok x, .ok y =>
    match decEq x y with
    | isTrue h => isTrue (h ▸ rfl)
    | isFalse h => isFalse (fun hh => h (Except.ok.inj hh))
  | .error x, .error y =>
    match decEq x y with
    | isTrue h => isTrue (h ▸ rfl)
    | isFalse h => isFalse (fun hh => h (Except.error.inj hh))
  | .ok _, .error _ => isFalse (fun h => Except.noConfusion h)
  | .error _, .ok _ => isFalse (fun h => Except.noConfusion h)

/-- The normalized static-analysis report (`parse_sonarqube_report`'s result
    dict; `raw_data` is the decoded input payload). -/
structure SonarParsed where
  project_key : Json
  project_name : Json
  bugs : Int
  vulnerabilities : Int
  code_smells : Int
  coverage : PyRat
  duplicated_lines_density : PyRat
  lines : Int
  ncloc : Int
  complexity : Int
  security_hotspots : Int
  sqale_rating : Json
  reliability_rating : Json
  security_rating : Json
  raw_data : Json
  deriving DecidableEq

/-- The `for measure in measures` loop of `parse_sonarqube_report`: flatten the
    measures into the `metrics` dict (unhashable metric keys raise TypeError,
    non-dict measures raise AttributeError, as in Python). -/
def buildMetrics (items : List Json) (m : List (Json × Json)) :
    Except PyErr (List (Json × Json)) :=
  match items with
  | [] => .ok m
  | measure :: rest =>
    match pyGet measure "metric" with
    | .error e => .error e
    | .ok mk =>
      match pyGetD measure "value" (.str "0") with
      | .error e => .error e
      | .ok mv =>
        if mk.hashable then buildMetrics rest (dsetPy m mk mv)
        else .error .typeError

/-- Lookup `metrics.get(key, default)`. -/
def metricsGet (m : List (Json × Json)) (k : String) (d : Json) : Json :=
  (dgetPy m (.str k)).getD d

/-- The `try` body of `parse_sonarqube_report`, before the exception handler
    collapses every error into ValueError. -/
def sonarBody (data : Json) : Except PyErr SonarParsed :=
  match pyGetD data "component" (.obj []) with
  | .error e => .error e
  | .ok component =>
    match pyGetD component "measures" (.arr []) with
    | .error e => .error e
    | .ok measures =>
      match pyIter measures with
      | .error e => .error e
      | .ok items =>
        match buildMetrics items [] with
        | .error e => .error e
        | .ok metrics =>
          match pyGetD component "key" (.str "Unknown") with
          | .error e => .error e
          | .ok pk =>
            match pyGetD component "name" (.str "Unknown") with
            | .error e => .error e
            | .ok pn =>
              match pyInt (metricsGet metrics "bugs" (jint 0)),
                  pyInt (metricsGet metrics "vulnerabilities" (jint 0)),
                  pyInt (metricsGet metrics "code_smells" (jint 0)),
                  pyFloat (metricsGet metrics "coverage" (jint 0)),
                  pyFloat (metricsGet metrics "duplicated_lines_density" (jint 0)) with
              | .ok bugs, .ok vulnerabilities, .ok code_smells, .ok coverage,
                  .ok dup =>
                match pyInt (metricsGet metrics "lines" (jint 0)),
                    pyInt (metricsGet metrics "ncloc" (jint 0)),
                    pyInt (metricsGet metrics "complexity" (jint 0)),
                    pyInt (metricsGet metrics "security_hotspots" (jint 0)) with
                | .ok lines, .ok ncloc, .ok complexity, .ok security_hotspots =>
                  .ok (SonarParsed.mk pk pn bugs vulnerabilities code_smells
                    coverage dup lines ncloc complexity security_hotspots
                    (metricsGet metrics "sqale_rating" (.str "A"))
                    (metricsGet metrics "reliability_rating" (.str "A"))
                    (metricsGet metrics "security_rating" (.str "A"))
                    data)
                | .error e, _, _, _ => .error e
                | _, .error e, _, _ => .error e
                | _, _, .error e, _ => .error e
                | _, _, _, .error e => .error e
              | .error e, _, _, _, _ => .error e
              | _, .error e, _, _, _ => .error e
              | _, _, .error e, _, _ => .error e
              | _, _, _, .error e, _ => .error e
              | _, _, _, _, .error e => .error e

/-- Python `parse_sonarqube_report` (src/utils/parsers.py lines 8-48): flatten the
    measures of the `component` object into a metrics map and coerce the fixed
    metric set, defaulting absent counts to 0, ratios to 0.0 and letter ratings
    to `"A"`; any exception surfaces as ValueError. -/
def parse_sonarqube_report (content : RawDoc) : Except PyErr SonarParsed :=
  match content with
  | .jsonDoc data =>
    match sonarBody data with
    | .ok r => .ok r
    | .error _ => .error .valueError
  | _ => .error .valueError

/-- The fixed image-scan severity map over CRITICAL/HIGH/MEDIUM/LOW/UNKNOWN. -/
structure Sev5 where
  CRITICAL : Nat
  HIGH : Nat
  MEDIUM : Nat
  LOW : Nat
  UNKNOWN : Nat
  deriving DecidableEq

/-- All-zero initial counters. -/
def Sev5.zero : Sev5 := ⟨0, 0, 0, 0, 0⟩

/-- Sum of the five buckets. -/
def Sev5.sum (s : Sev5) : Nat :=
  s.CRITICAL + s.HIGH + s.MEDIUM + s.LOW + s.UNKNOWN

/-- Python `if severity in severity_counts: counts[severity] += 1
    else: counts['UNKNOWN'] += 1` for an upper-cased severity string. -/
def Sev5.bump (s : Sev5) (sev : String) : Sev5 :=
  if sev = "CRITICAL" then { s with CRITICAL := s.CRITICAL + 1 }
  else if sev = "HIGH" then { s with HIGH := s.HIGH + 1 }
  else if sev = "MEDIUM" then { s with MEDIUM := s.MEDIUM + 1 }
  else if sev = "LOW" then { s with LOW := s.LOW + 1 }
  else { s with UNKNOWN := s.UNKNOWN + 1 }

/-- The normalized image-scan report (`parse_trivy_report`'s result dict). -/
structure TrivyParsed where
  artifact_name : Json
  artifact_type : Json
  schema_version : Json
  vuln_total : Nat
  by_severity : Sev5
  results : Json
  raw_data : Json
  deriving DecidableEq

/-- The inner `for vuln in vulnerabilities` loop of `parse_trivy_report`:
    take `vuln.get('Severity', 'UNKNOWN').upper()`, bump the matching bucket
    (unknown labels go to UNKNOWN) and count the record. -/
def trivyVulnLoop (acc : Sev5 × Nat) (items : List Json) :
    Except PyErr (Sev5 × Nat) :=
  match items with
  | [] => .ok acc
  | v :: rest =>
    match pyGetD v "Severity" (.str "UNKNOWN") with
    | .error e => .error e
    | .ok sevJ =>
      match pyUpper sevJ with
      | .error e => .error e
      | .ok s => trivyVulnLoop (acc.1.bump s, acc.2 + 1) rest

/-- The outer `for result in results` loop of `parse_trivy_report`. -/
def trivyResultLoop (acc : Sev5 × Nat) (items : List Json) :
    Except PyErr (Sev5 × Nat) :=
  match items with
  | [] => .ok acc
  | r :: rest =>
    match pyGetD r "Vulnerabilities" (.arr []) with
    | .error e => .error e
    | .ok vulns =>
      match pyIter vulns with
      | .error e => .error e
      | .ok vitems =>
        match trivyVulnLoop acc vitems with
        | .error e => .error e
        | .ok acc' => trivyResultLoop acc' rest

/-- The `try` body of `parse_trivy_report`, before the exception handler
    collapses every error into ValueError. -/
def trivyBody (data : Json) : Except PyErr TrivyParsed :=
  match pyGetD data "Results" (.arr []) with
  | .error e => .error e
  | .ok results =>
    match pyIter results with
    | .error e => .error e
    | .ok items =>
      match trivyResultLoop (Sev5.zero, 0) items with
      | .error e => .error e
      | .ok (sev, total) =>
        match pyGetD data "ArtifactName" (.str "Unknown"),
            pyGetD data "ArtifactType" (.str "Unknown"),
            pyGetD data "SchemaVersion" (.str "Unknown") with
        | .ok artifact_name, .ok artifact_type, .ok schema_version =>
          .ok (TrivyParsed.mk artifact_name artifact_type schema_version total
            sev results data)
        | .error e, _, _ => .error e
        | _, .error e, _ => .error e
        | _, _, .error e => .error e

/-- Python `parse_trivy_report` (src/utils/parsers.py lines 324-366): flatten every
    result's vulnerability list, tally severities case-insensitively with
    unmatched labels under UNKNOWN, and keep the results list and raw payload;
    invalid JSON or any other exception surfaces as ValueError. -/
def parse_trivy_report (content : RawDoc) : Except PyErr TrivyParsed :=
  match content with
  | .jsonDoc data =>
    match trivyBody data with
    | .ok r => .ok r
    | .error _ => .error .valueError
  | _ => .error .valueError

/-- The fixed SBOM severity map over critical/high/medium/low/info/unknown. -/
structure Sev6 where
  critical : Nat
  high : Nat
  medium : Nat
  low : Nat
  info : Nat
  unknown : Nat
  deriving DecidableEq

/-- All-zero initial counters. -/
def Sev6.zero : Sev6 := ⟨0, 0, 0, 0, 0, 0⟩

/-- Sum of the six buckets. -/
def Sev6.sum (s : Sev6) : Nat :=
  s.critical + s.high + s.medium + s.low + s.info + s.unknown

/-- Python `if severity in severity_counts: counts[severity] += 1
    else: counts['unknown'] += 1` for a lower-cased severity string. -/
def Sev6.bump (s : Sev6) (sev : String) : Sev6 :=
  if sev = "critical" then { s with critical := s.critical + 1 }
  else if sev = "high" then { s with high := s.high + 1 }
  else if sev = "medium" then { s with medium := s.medium + 1 }
  else if sev = "low" then { s with low := s.low + 1 }
  else if sev = "info" then { s with info := s.info + 1 }
  else if sev = "unknown" then { s with unknown := s.unknown + 1 }
  else { s with unknown := s.unknown + 1 }

/-- Is the lower-cased severity one of the six known keys? -/
def sev6Known (sev : String) : Bool :=
  sev = "critical" || sev = "high" || sev = "medium" || sev = "low" ||
    sev = "info" || sev = "unknown"

/-- Per-component details extracted on the SBOM XML path. -/
structure CompDetail where
  ctype : String
  name : Option String
  version : Option String
  group : Option String
  author : Option String
  description : Option String
  hashes : List (String × String)
  deriving DecidableEq

/-- Per-vulnerability details extracted on the SBOM XML path (`severity` is
    only set when some rating carried one). -/
structure VulnDetail where
  id : String
  source : String
  severity : Option String
  deriving DecidableEq

/-- The component summary of a normalized SBOM report (`details` is only
    present on the XML path). -/
structure SbomComponents where
  total : Nat
  by_type : List (Json × Nat)
  licenses : List Json
  details : Option (List CompDetail)
  deriving DecidableEq

/-- The vulnerability summary of a normalized SBOM report. -/
structure SbomVulns where
  total : Nat
  by_severity : Sev6
  details : Option (List VulnDetail)
  deriving DecidableEq

/-- The normalized SBOM report (`_parse_sbom_json` / `_parse_sbom_xml` result
    dict; `raw_data` keeps the decoded JSON payload or the XML source). -/
structure SbomParsed where
  bom_format : Json
  spec_version : Json
  metadata : Json
  components : SbomComponents
  vulnerabilities : SbomVulns
  raw_data : RawDoc
  deriving DecidableEq

/-- The `for vuln in vulnerabilities` loop of `_parse_sbom_json`: when the
    record's `ratings` list is truthy, classify `ratings[0]`'s lower-cased
    severity (default `'unknown'`); records without ratings are not counted. -/
def sbomJsonVulnLoop (c : Sev6) (items : List Json) : Except PyErr Sev6 :=
  match items with
  | [] => .ok c
  | v :: rest =>
    match pyGetD v "ratings" (.arr []) with
    | .error e => .error e
    | .ok ratings =>
      if ratings.truthy then
        match pyIndex0 ratings with
        | .error e => .error e
        | .ok r0 =>
          match pyGetD r0 "severity" (.str "unknown") with
          | .error e => .error e
          | .ok sevJ =>
            match pyLower sevJ with
            | .error e => .error e
            | .ok s => sbomJsonVulnLoop (c.bump s) rest
      else sbomJsonVulnLoop c rest

/-- The license extraction of `_parse_sbom_json`'s component loop:
    `if 'license' in license_info:` take `['license'].get('name')` or
    `.get('id')` and add any truthy result to the license set (unhashable
    values raise TypeError as in Python). -/
def sbomLicLoop (acc : List Json) (items : List Json) :
    Except PyErr (List Json) :=
  match items with
  | [] => .ok acc
  | li :: rest =>
    match pyIn "license" li with
    | .error e => .error e
    | .ok has =>
      if has then
        match pySubscript li "license" with
        | .error e => .error e
        | .ok lv =>
          match pyGet lv "name" with
          | .error e => .error e
          | .ok n1 =>
            match (if n1.truthy then .ok n1 else pyGet lv "id" :
                Except PyErr Json) with
            | .error e => .error e
            | .ok ln =>
              if ln.truthy then
                if ln.hashable then sbomLicLoop (setAdd acc ln) rest
                else .error .typeError
              else sbomLicLoop acc rest
      else sbomLicLoop acc rest

/-- The `for component in components` loop of `_parse_sbom_json`: tally the
    component's `type` (default `'unknown'`) into `by_type` and collect its
    license names. -/
def sbomCompLoop (bt : List (Json × Nat)) (lic : List Json)
    (items : List Json) : Except PyErr (List (Json × Nat) × List Json) :=
  match items with
  | [] => .ok (bt, lic)
  | comp :: rest =>
    match pyGetD comp "type" (.str "unknown") with
    | .error e => .error e
    | .ok t =>
      if t.hashable then
        match pyGetD comp "licenses" (.arr []) with
        | .error e => .error e
        | .ok lics =>
          match pyIter lics with
          | .error e => .error e
          | .ok litems =>
            match sbomLicLoop lic litems with
            | .error e => .error e
            | .ok lic' => sbomCompLoop (dincr bt t) lic' rest
      else .error .typeError

/-- Python `_parse_sbom_json` (src/utils/parsers.py lines 65-121): count rated
    vulnerabilities by the severity of their first rating, tally component
    types and licenses, and report `len(components)` / `len(vulnerabilities)`
    as the totals. -/
def parse_sbom_json (data : Json) : Except PyErr SbomParsed :=
  match pyGetD data "components" (.arr []) with
  | .error e => .error e
  | .ok components =>
    match pyGetD data "vulnerabilities" (.arr []) with
    | .error e => .error e
    | .ok vulnerabilities =>
      match pyIter vulnerabilities with
      | .error e => .error e
      | .ok vitems =>
        match sbomJsonVulnLoop Sev6.zero vitems with
        | .error e => .error e
        | .ok sev =>
          match pyLen components with
          | .error e => .error e
          | .ok ctotal =>
            match pyIter components with
            | .error e => .error e
            | .ok citems =>
              match sbomCompLoop [] [] citems with
              | .error e => .error e
              | .ok (bt, lic) =>
                match pyLen vulnerabilities with
                | .error e => .error e
                | .ok vtotal =>
                  match pyGetD data "bomFormat" (.str "CycloneDX"),
                      pyGetD data "specVersion" (.str "Unknown"),
                      pyGetD data "metadata" (.obj []) with
                  | .ok bom_format, .ok spec_version, .ok metadata =>
                    .ok (SbomParsed.mk bom_format spec_version metadata
                      (SbomComponents.mk ctotal bt lic none)
                      (SbomVulns.mk vtotal sev none)
                      (.jsonDoc data))
                  | .error e, _, _ => .error e
                  | _, .error e, _ => .error e
                  | _, _, .error e => .error e

/-- The CycloneDX namespace URIs probed by `_parse_sbom_xml`. -/
def nsURIs : List String :=
  ["http://cyclonedx.org/schema/bom/1.6", "http://cyclonedx.org/schema/bom/1.5",
   "http://cyclonedx.org/schema/bom/1.4", "http://cyclonedx.org/schema/bom/1.3"]

/-- Namespace detection of `_parse_sbom_xml`: take the URI from a qualified
    root tag, else probe the known URIs by whether a component query matches;
    `none` when no strategy succeeds. -/
def detectNs (root : XmlElem) : Option String :=
  if strStartsWith root.tag "\x7b" then
    some (.mk ((root.tag.toList.takeWhile (fun c => c != '\x7d')).drop 1))
  else
    nsURIs.find? (fun uri => !(findDesc root (qual uri "component")).isEmpty)

/-- Component discovery of `_parse_sbom_xml`: namespaced descendant query,
    else unqualified query, else scan every element for a tag suffix match. -/
def sbomXmlComponents (ns : Option String) (root : XmlElem) : List XmlElem :=
  let viaNs := match ns with
    | some uri => findDesc root (qual uri "component")
    | none => []
  if !viaNs.isEmpty then viaNs
  else
    let plain := findDesc root "component"
    if !plain.isEmpty then plain
    else root.iterAll.filter (fun e => strEndsWith e.tag "component")

/-- Vulnerability discovery of `_parse_sbom_xml`, same three-tier fallback. -/
def sbomXmlVulns (ns : Option String) (root : XmlElem) : List XmlElem :=
  let viaNs := match ns with
    | some uri => findDesc root (qual uri "vulnerability")
    | none => []
  if !viaNs.isEmpty then viaNs
  else
    let plain := findDesc root "vulnerability"
    if !plain.isEmpty then plain
    else root.iterAll.filter (fun e => strEndsWith e.tag "vulnerability")

/-- Metadata extraction: the first namespaced `timestamp` descendant's text,
    when a namespace is known. -/
def xmlMetadata (ns : Option String) (root : XmlElem) : Json :=
  match ns with
  | some uri =>
    match (findDesc root (qual uri "timestamp")).head? with
    | some e =>
      .obj [("timestamp", match e.text with | some t => .str t | none => .null)]
    | none => .obj []
  | none => .obj []

/-- Per-component field lookup: namespaced child, else unqualified child, else
    first direct child whose tag ends with the field name. -/
def xmlFieldElem (ns : Option String) (comp : XmlElem) (f : String) :
    Option XmlElem :=
  let e1 : Option XmlElem := match ns with
    | some uri => findChild comp (qual uri f)
    | none => none
  match e1 with
  | some e => some e
  | none =>
    match findChild comp f with
    | some e => some e
    | none => comp.children.find? (fun c => strEndsWith c.tag f)

/-- Python `elem.text if elem is not None else 'Unknown'` for a component field. -/
def xmlFieldVal (ns : Option String) (comp : XmlElem) (f : String) :
    Option String :=
  match xmlFieldElem ns comp f with
  | some e => e.text
  | none => some "Unknown"

/-- License descendants of a component: namespaced query, else unqualified. -/
def xmlCompLicElems (ns : Option String) (comp : XmlElem) : List XmlElem :=
  let viaNs := match ns with
    | some uri => findDesc comp (qual uri "license")
    | none => []
  if !viaNs.isEmpty then viaNs else findDesc comp "license"

/-- One license field (`name` or `id`): namespaced child else plain child,
    yielding its text only when truthy. -/
def xmlLicField (ns : Option String) (lic : XmlElem) (f : String) :
    Option String :=
  let e1 : Option XmlElem := match ns with
    | some uri => findChild lic (qual uri f)
    | none => none
  let e := match e1 with
    | some el => some el
    | none => findChild lic f
  match e with
  | some el =>
    match el.text with
    | some t => if !t.toList.isEmpty then some t else none
    | none => none
  | none => none

/-- License name resolution: `name` first, else `id`. -/
def xmlLicName (ns : Option String) (lic : XmlElem) : Option String :=
  match xmlLicField ns lic "name" with
  | some t => some t
  | none => xmlLicField ns lic "id"

/-- Add every resolvable license name of the given elements to the set. -/
def xmlLicAdd (ns : Option String) (acc : List Json) (ls : List XmlElem) :
    List Json :=
  match ls with
  | [] => acc
  | l :: rest =>
    match xmlLicName ns l with
    | some t => xmlLicAdd ns (setAdd acc (.str t)) rest
    | none => xmlLicAdd ns acc rest

/-- Hash descendants of a component: namespaced query, else unqualified. -/
def xmlCompHashElems (ns : Option String) (comp : XmlElem) : List XmlElem :=
  let viaNs := match ns with
    | some uri => findDesc comp (qual uri "hash")
    | none => []
  if !viaNs.isEmpty then viaNs else findDesc comp "hash"

/-- The pair `(alg, value)` for one hash element, each defaulting to `'unknown'`. -/
def xmlHashOf (h : XmlElem) : String × String :=
  (h.get "alg" "unknown",
   match h.text with
   | some t => if !t.toList.isEmpty then t else "unknown"
   | none => "unknown")

/-- The `for component in components[:100]` loop of `_parse_sbom_xml`: tally
    `type` (default `'library'`), collect licenses, and build one detail
    record per component. -/
def xmlCompLoop (ns : Option String) (bt : List (Json × Nat))
    (lic : List Json) (items : List XmlElem) :
    List (Json × Nat) × List Json × List CompDetail :=
  match items with
  | [] => (bt, lic, [])
  | comp :: rest =>
    let t := comp.get "type" "library"
    let bt' := dincr bt (.str t)
    let lic' := xmlLicAdd ns lic (xmlCompLicElems ns comp)
    let d : CompDetail :=
      ⟨t, xmlFieldVal ns comp "name", xmlFieldVal ns comp "version",
       xmlFieldVal ns comp "group", xmlFieldVal ns comp "author",
       xmlFieldVal ns comp "description",
       (xmlCompHashElems ns comp).map xmlHashOf⟩
    let (btf, licf, ds) := xmlCompLoop ns bt' lic' rest
    (btf, licf, d :: ds)

/-- Rating descendants of a vulnerability: namespaced, else unqualified. -/
def xmlVulnRatings (ns : Option String) (v : XmlElem) : List XmlElem :=
  let viaNs := match ns with
    | some uri => findDesc v (qual uri "rating")
    | none => []
  if !viaNs.isEmpty then viaNs else findDesc v "rating"

/-- The severity child of one rating: namespaced child, else plain child. -/
def xmlSevElem (ns : Option String) (rating : XmlElem) : Option XmlElem :=
  let e1 : Option XmlElem := match ns with
    | some uri => findChild rating (qual uri "severity")
    | none => none
  match e1 with
  | some e => some e
  | none => findChild rating "severity"

/-- Scan the ratings in order for the first severity element with truthy text;
    yield its lower-cased text. -/
def xmlRatingScan (ns : Option String) (rs : List XmlElem) : Option String :=
  match rs with
  | [] => none
  | r :: rest =>
    match xmlSevElem ns r with
    | some e =>
      match e.text with
      | some t => if !t.toList.isEmpty then some (strLower t) else xmlRatingScan ns rest
      | none => xmlRatingScan ns rest
    | none => xmlRatingScan ns rest

/-- The severity a vulnerability element contributes, if any. -/
def xmlVulnSeverity (ns : Option String) (v : XmlElem) : Option String :=
  xmlRatingScan ns (xmlVulnRatings ns v)

/-- The `for vuln in vulnerabilities[:50]` loop of `_parse_sbom_xml`: count at
    most one severity per vulnerability (unmatched labels to `unknown`) and
    build its detail record. -/
def xmlVulnLoop (ns : Option String) (c : Sev6) (items : List XmlElem) :
    Sev6 × List VulnDetail :=
  match items with
  | [] => (c, [])
  | v :: rest =>
    let idv := v.get "id" "Unknown"
    let src := v.get "source" "Unknown"
    let (c', sv) : Sev6 × Option String :=
      match xmlVulnSeverity ns v with
      | none => (c, none)
      | some s =>
        if sev6Known s then (c.bump s, some s) else (c.bump s, some "unknown")
    let (cf, ds) := xmlVulnLoop ns c' rest
    (cf, ⟨idv, src, sv⟩ :: ds)

/-- Python `_parse_sbom_xml` (src/utils/parsers.py lines 123-322): three-tier
    namespace fallback, component details capped at 100 and vulnerability
    details capped at 50, with the totals taken from the uncapped element
    lists; the XML path never raises once the document parsed. -/
def parse_sbom_xml (root : XmlElem) : SbomParsed :=
  let ns := detectNs root
  let comps := sbomXmlComponents ns root
  let cres := xmlCompLoop ns [] [] (comps.take 100)
  let vulns := sbomXmlVulns ns root
  let vres := xmlVulnLoop ns Sev6.zero (vulns.take 50)
  SbomParsed.mk (.str "CycloneDX") (.str (root.get "version" "Unknown"))
    (xmlMetadata ns root)
    (SbomComponents.mk comps.length cres.1 cres.2.1 (some cres.2.2))
    (SbomVulns.mk vulns.length vres.1 (some vres.2))
    (.xmlDoc root)

/-- Python `parse_sbom_report` (src/utils/parsers.py lines 50-63): try JSON first and
    fall back to XML only on a JSON decode error; every other exception (from
    either path) is re-raised as ValueError. -/
def parse_sbom_report (content : RawDoc) : Except PyErr SbomParsed :=
  match content with
  | .jsonDoc data =>
    match parse_sbom_json data with
    | .ok r => .ok r
    | .error _ => .error .valueError
  | .xmlDoc x => .ok (parse_sbom_xml x)
  | .neither => .error .valueError

/-- The severity roll-up buckets of `calculate_severity_counts`. -/
structure Counts4 where
  critical : PyRat
  high : PyRat
  medium : PyRat
  low : PyRat
  deriving DecidableEq

/-- The all-zero roll-up dict over critical/high/medium/low. -/
def Counts4.zero : Counts4 :=
  ⟨PyRat.ofNat 0, PyRat.ofNat 0, PyRat.ofNat 0, PyRat.ofNat 0⟩

/-- A `Report` ORM row whose `data` column holds `json.dumps` of the given
    value (so `json.loads(row.data)` gives the value back). -/
structure ReportRow where
  data : Json
  deriving DecidableEq

/-- The SonarQube block of `calculate_severity_counts`: add the stored
    `vulnerabilities` count to `high` and `bugs` to `medium`; any exception is
    swallowed by the bare `except: pass`, keeping increments already made. -/
def severityCountsSonar (c : Counts4) (d : Json) : Counts4 :=
  match pyGetD d "bugs" (jint 0) with
  | .error _ => c
  | .ok bugsJ =>
    match pyGetD d "vulnerabilities" (jint 0) with
    | .error _ => c
    | .ok vJ =>
      match vJ.numOf with
      | none => c
      | some v =>
        let c1 := { c with high := c.high.add v }
        match bugsJ.numOf with
        | none => c1
        | some b => { c1 with medium := c1.medium.add b }

/-- The per-vulnerability part of the Trivy block of
    `calculate_severity_counts`: `vuln.get('severity', '').lower()` routed to
    the matching bucket; an exception stops the loop, keeping prior counts. -/
def severityCountsTrivyLoop (c : Counts4) (items : List Json) : Counts4 :=
  match items with
  | [] => c
  | v :: rest =>
    match pyGetD v "severity" (.str "") with
    | .error _ => c
    | .ok sevJ =>
      match pyLower sevJ with
      | .error _ => c
      | .ok s =>
        let c' :=
          if s = "critical" then { c with critical := c.critical.add (PyRat.ofNat 1) }
          else if s = "high" then { c with high := c.high.add (PyRat.ofNat 1) }
          else if s = "medium" then { c with medium := c.medium.add (PyRat.ofNat 1) }
          else if s = "low" then { c with low := c.low.add (PyRat.ofNat 1) }
          else c
        severityCountsTrivyLoop c' rest

/-- The Trivy block of `calculate_severity_counts`: iterate the stored
    top-level `vulnerabilities` value (the parser actually stores a summary
    dict there, whose keys are strings). -/
def severityCountsTrivy (c : Counts4) (d : Json) : Counts4 :=
  match pyGetD d "vulnerabilities" (.arr []) with
  | .error _ => c
  | .ok vulns =>
    match pyIter vulns with
    | .error _ => c
    | .ok items => severityCountsTrivyLoop c items

/-- Python `calculate_severity_counts` (src/app.py lines 1070-1106) applied to
    `Report` rows: SonarQube vulnerabilities→high and bugs→medium, Trivy
    severities into matching buckets, SBOM ignored entirely. -/
def calculate_severity_counts (sq sb tv : Option ReportRow) : Counts4 :=
  let c := Counts4.zero
  let c := match sq with
    | none => c
    | some r => severityCountsSonar c r.data
  let c := match tv with
    | none => c
    | some r => severityCountsTrivy c r.data
  c

/-- Python `calculate_severity_counts` as actually invoked by `get_heatmap_data`
    (src/app.py line 841): the caller passes `project.get_report(kind)`, which
    is the *parsed dict*, not a `Report` row; `json.loads(report.data)` then
    raises AttributeError (a dict has no `.data` attribute) inside both
    blocks, and the bare `except: pass` swallows it, so no bucket is ever
    incremented. -/
def calculate_severity_counts_heatmap (sq sb tv : Option Json) : Counts4 :=
  Counts4.zero

/-- Python `sum(1 for v in vulnerabilities if v.get('severity') == LABEL)` inside
    `calculate_vulnerability_risk`. -/
def vulnRiskCountSev (items : List Json) (label : String) :
    Except PyErr Nat :=
  match items with
  | [] => .ok 0
  | v :: rest =>
    match pyGet v "severity" with
    | .error e => .error e
    | .ok s =>
      match vulnRiskCountSev rest label with
      | .error e => .error e
      | .ok n => .ok (n + if pyEq s (.str label) then 1 else 0)

/-- The body of `calculate_vulnerability_risk` (src/app.py lines 974-995)
    after `json.loads`: read the top-level `vulnerabilities` value, count
    `severity` labels, and return `round(min(10, (3c + 2h + m) / 10), 1)`;
    any exception yields 0 via the bare `except`. -/
def calculate_vulnerability_risk_data (d : Json) : PyRat :=
  match pyGetD d "vulnerabilities" (.arr []) with
  | .error _ => PyRat.ofNat 0
  | .ok vulns =>
    if !vulns.truthy then PyRat.ofNat 0
    else
      match pyIter vulns with
      | .error _ => PyRat.ofNat 0
      | .ok items =>
        match vulnRiskCountSev items "CRITICAL",
            vulnRiskCountSev items "HIGH",
            vulnRiskCountSev items "MEDIUM" with
        | .ok critical, .ok high, .ok medium =>
          let score := (((PyRat.ofNat critical).mul (PyRat.ofNat 3)).add
            (((PyRat.ofNat high).mul (PyRat.ofNat 2)).add
              ((PyRat.ofNat medium).mul (PyRat.ofNat 1)))).divNat 10
          PyRat.round1 ((PyRat.ofNat 10).pymin score)
        | _, _, _ => PyRat.ofNat 0

/-- Python `calculate_vulnerability_risk` applied to a `Report` row (0 when the
    report is absent). -/
def calculate_vulnerability_risk (tv : Option ReportRow)
    (sb : Option ReportRow) : PyRat :=
  match tv with
  | none => PyRat.ofNat 0
  | some r => calculate_vulnerability_risk_data r.data

/-- Python `calculate_vulnerability_risk` as actually invoked by `get_heatmap_data`
    (src/app.py line 834): the argument is the parsed dict from
    `project.get_report('trivy')`, so `trivy_report.data` raises
    AttributeError, which the bare `except: return 0` turns into 0. -/
def calculate_vulnerability_risk_heatmap (tv : Option Json)
    (sb : Option Json) : PyRat :=
  PyRat.ofNat 0

/-- Serialization round trip of the severity map stored by
    `parse_trivy_report`. -/
def sev5Json (s : Sev5) : Json :=
  .obj [("CRITICAL", .num (PyRat.ofNat s.CRITICAL)),
        ("HIGH", .num (PyRat.ofNat s.HIGH)),
        ("MEDIUM", .num (PyRat.ofNat s.MEDIUM)),
        ("LOW", .num (PyRat.ofNat s.LOW)),
        ("UNKNOWN", .num (PyRat.ofNat s.UNKNOWN))]

/-- The JSON value stored by `project.set_report('trivy', parsed)` — the
    result dict of `parse_trivy_report` serialized and re-loaded: note the
    `vulnerabilities` key holds a summary dict, not a list of records. -/
def storedTrivyJson (p : TrivyParsed) : Json :=
  .obj [("artifact_name", p.artifact_name),
        ("artifact_type", p.artifact_type),
        ("schema_version", p.schema_version),
        ("vulnerabilities",
          .obj [("total", .num (PyRat.ofNat p.vuln_total)),
                ("by_severity", sev5Json p.by_severity)]),
        ("results", p.results),
        ("raw_data", p.raw_data)]

/-- The JSON value stored by `project.set_report('sonarqube', parsed)`. -/
def storedSonarJson (p : SonarParsed) : Json :=
  .obj [("project_key", p.project_key),
        ("project_name", p.project_name),
        ("bugs", jint p.bugs),
        ("vulnerabilities", jint p.vulnerabilities),
        ("code_smells", jint p.code_smells),
        ("coverage", .num p.coverage),
        ("duplicated_lines_density", .num p.duplicated_lines_density),
        ("lines", jint p.lines),
        ("ncloc", jint p.ncloc),
        ("complexity", jint p.complexity),
        ("security_hotspots", jint p.security_hotspots),
        ("sqale_rating", p.sqale_rating),
        ("reliability_rating", p.reliability_rating),
        ("security_rating", p.security_rating),
        ("raw_data", p.raw_data)]

/-! ### Characterizations used by the claim statements -/

/-- Does a JSON vulnerability record carry a truthy `ratings` entry? (these
    and only these records are counted by `_parse_sbom_json`) -/
def ratedB (v : Json) : Bool :=
  match pyGetD v "ratings" (.arr []) with
  | .ok r => r.truthy
  | .error _ => false

/-- Does an XML vulnerability element contribute a severity? -/
def xmlRatedB (ns : Option String) (v : XmlElem) : Bool :=
  (xmlVulnSeverity ns v).isSome

/-- A Trivy vulnerability record with the given severity string. -/
def sevRec (s : String) : Json := .obj [("Severity", .str s)]

/-- An image-scan payload with a single result carrying the given severity
    strings. -/
def mkTrivyDoc (l : List String) : Json :=
  .obj [("Results", .arr [.obj [("Vulnerabilities", .arr (l.map sevRec))]])]

/-- The reference classification for image-scan severity strings: upper-case,
    then route to the matching bucket, unknown labels to UNKNOWN. -/
def trivyCounts (l : List String) : Sev5 :=
  l.foldl (fun c s => c.bump (strUpper s)) Sev5.zero

/-! ### Shared lemmas -/

/-- Python `len(v)` agrees with the length of the iteration of `v`. -/
theorem pyLen_iter {v : Json} {l : List Json} (h : pyIter v = .ok l) :
    pyLen v = .ok l.length := by
  cases v <;> simp [pyIter] at h <;> subst h <;> simp [pyLen]

/-- Bumping a six-way severity map adds exactly one to its sum. -/
theorem sev6_sum_bump (c : Sev6) (s : String) :
    (c.bump s).sum = c.sum + 1 := by
  unfold Sev6.bump
  split_ifs <;> simp [Sev6.sum] <;> omega

/-- Bumping a five-way severity map adds exactly one to its sum. -/
theorem sev5_sum_bump (c : Sev5) (s : String) :
    (c.bump s).sum = c.sum + 1 := by
  unfold Sev5.bump
  split_ifs <;> simp [Sev5.sum] <;> omega


/-- A successful run of the SBOM JSON vulnerability loop adds one count per
    record with a truthy `ratings` entry, and nothing else. -/
theorem sbomJsonVulnLoop_sum :
    ∀ (items : List Json) {c c' : Sev6},
      sbomJsonVulnLoop c items = .ok c' →
      c'.sum = c.sum + items.countP ratedB := by
  intro items
  induction items with
  | nil =>
    intro c c' h
    simp [sbomJsonVulnLoop] at h
    simp [h]
  | cons v rest ih =>
    intro c c' h
    rw [sbomJsonVulnLoop] at h
    cases hg : pyGetD v "ratings" (.arr []) with
    | error e => rw [hg] at h; exact absurd h (by simp)
    | ok r =>
      rw [hg] at h
      dsimp only at h
      by_cases ht : r.truthy
      · rw [if_pos ht] at h
        cases h0 : pyIndex0 r with
        | error e => rw [h0] at h; exact absurd h (by simp)
        | ok r0 =>
          rw [h0] at h
          dsimp only at h
          cases hs : pyGetD r0 "severity" (.str "unknown") with
          | error e => rw [hs] at h; exact absurd h (by simp)
          | ok sevJ =>
            rw [hs] at h
            dsimp only at h
            cases hl : pyLower sevJ with
            | error e => rw [hl] at h; exact absurd h (by simp)
            | ok s =>
              rw [hl] at h
              dsimp only at h
              have := ih h
              rw [List.countP_cons]
              simp [ratedB, hg, ht, this, sev6_sum_bump]
              omega
      · rw [if_neg ht] at h
        have := ih h
        rw [List.countP_cons]
        simp [ratedB, hg, ht, this]

/-- Incrementing a counting dict raises the value total by exactly one. -/
theorem countSum_dincr : ∀ (d : List (Json × Nat)) (k : Json),
    countSum (dincr d k) = countSum d + 1 := by
  intro d k
  induction d with
  | nil => simp [dincr, countSum]
  | cons p rest ih =>
    obtain ⟨k', n⟩ := p
    rw [dincr]
    by_cases hk : pyEq k' k
    · rw [if_pos hk]; simp [countSum]; omega
    · rw [if_neg hk]; simp [countSum] at ih ⊢; omega

/-- A successful run of the SBOM JSON component loop adds one `by_type` count
    per component. -/
theorem sbomCompLoop_sum :
    ∀ (items : List Json) {bt : List (Json × Nat)} {lic : List Json}
      {bt' : List (Json × Nat)} {lic' : List Json},
      sbomCompLoop bt lic items = .ok (bt', lic') →
      countSum bt' = countSum bt + items.length := by
  intro items
  induction items with
  | nil =>
    intro bt lic bt' lic' h
    simp [sbomCompLoop] at h
    simp [h.1]
  | cons comp rest ih =>
    intro bt lic bt' lic' h
    rw [sbomCompLoop] at h
    cases hg : pyGetD comp "type" (.str "unknown") with
    | error e => rw [hg] at h; exact absurd h (by simp)
    | ok t =>
      rw [hg] at h
      dsimp only at h
      by_cases hh : t.hashable
      · rw [if_pos hh] at h
        cases hl : pyGetD comp "licenses" (.arr []) with
        | error e => rw [hl] at h; exact absurd h (by simp)
        | ok lics =>
          rw [hl] at h
          dsimp only at h
          cases hi : pyIter lics with
          | error e => rw [hi] at h; exact absurd h (by simp)
          | ok litems =>
            rw [hi] at h
            dsimp only at h
            cases hll : sbomLicLoop lic litems with
            | error e => rw [hll] at h; exact absurd h (by simp)
            | ok lic2 =>
              rw [hll] at h
              dsimp only at h
              have := ih h
              rw [this, countSum_dincr]
              simp; omega
      · rw [if_neg hh] at h; exact absurd h (by simp)

/-- The XML component loop: one `by_type` count and one detail record per
    processed component. -/
theorem xmlCompLoop_facts :
    ∀ (items : List XmlElem) (ns : Option String) (bt : List (Json × Nat))
      (lic : List Json),
      countSum (xmlCompLoop ns bt lic items).1 = countSum bt + items.length ∧
      (xmlCompLoop ns bt lic items).2.2.length = items.length := by
  intro items
  induction items with
  | nil => intro ns bt lic; simp [xmlCompLoop]
  | cons comp rest ih =>
    intro ns bt lic
    rw [xmlCompLoop]
    dsimp only
    have := ih ns (dincr bt (.str (comp.get "type" "library")))
      (xmlLicAdd ns lic (xmlCompLicElems ns comp))
    constructor
    · rw [this.1, countSum_dincr]; simp; omega
    · simp [this.2]

/-- The XML vulnerability loop: one severity count per element that
    contributes a severity, one detail record per element. -/
theorem xmlVulnLoop_facts :
    ∀ (items : List XmlElem) (ns : Option String) (c : Sev6),
      (xmlVulnLoop ns c items).1.sum =
        c.sum + items.countP (xmlRatedB ns) ∧
      (xmlVulnLoop ns c items).2.length = items.length := by
  intro items
  induction items with
  | nil => intro ns c; simp [xmlVulnLoop]
  | cons v rest ih =>
    intro ns c
    rw [xmlVulnLoop]
    dsimp only
    rw [List.countP_cons]
    cases hs : xmlVulnSeverity ns v with
    | none =>
      have := ih ns c
      simp [xmlRatedB, hs, this.1, this.2]
    | some s =>
      have hrec := ih ns (c.bump s)
      by_cases hk : sev6Known s <;>
        simp [hk, xmlRatedB, hs, hrec.1, hrec.2, sev6_sum_bump] <;> omega

/-- The Trivy vulnerability loop over a list of severity records classifies
    each record by its upper-cased severity and counts every record. -/
theorem trivyVulnLoop_map :
    ∀ (l : List String) (c : Sev5) (n : Nat),
      trivyVulnLoop (c, n) (l.map sevRec) =
        .ok (l.foldl (fun a s => a.bump (strUpper s)) c, n + l.length) := by
  intro l
  induction l with
  | nil => intro c n; simp [trivyVulnLoop]
  | cons s rest ih =>
    intro c n
    rw [List.map_cons, trivyVulnLoop]
    have h1 : pyGetD (sevRec s) "Severity" (.str "UNKNOWN") = .ok (.str s) := by
      simp [sevRec, pyGetD, List.lookup]
    rw [h1]
    dsimp only
    rw [show pyUpper (.str s) = .ok (strUpper s) from rfl]
    dsimp only
    rw [ih]
    simp
    omega

/-- Inversion of a successful `_parse_sbom_json` run: recover the intermediate
    vulnerability/component lists and the loop results that built the output. -/
theorem parse_sbom_json_inv {data : Json} {out : SbomParsed}
    (h : parse_sbom_json data = .ok out) :
    ∃ components vulnerabilities vitems citems sev bt lic,
      pyGetD data "components" (.arr []) = .ok components ∧
      pyGetD data "vulnerabilities" (.arr []) = .ok vulnerabilities ∧
      pyIter vulnerabilities = .ok vitems ∧
      sbomJsonVulnLoop Sev6.zero vitems = .ok sev ∧
      pyIter components = .ok citems ∧
      sbomCompLoop [] [] citems = .ok (bt, lic) ∧
      out.components.total = citems.length ∧
      out.components.by_type = bt ∧
      out.vulnerabilities.total = vitems.length ∧
      out.vulnerabilities.by_severity = sev := by
  unfold parse_sbom_json at h
  cases hc : pyGetD data "components" (.arr []) with
  | error e => rw [hc] at h; exact absurd h (by simp)
  | ok components =>
    rw [hc] at h; dsimp only at h
    cases hv : pyGetD data "vulnerabilities" (.arr []) with
    | error e => rw [hv] at h; exact absurd h (by simp)
    | ok vulnerabilities =>
      rw [hv] at h; dsimp only at h
      cases hvi : pyIter vulnerabilities with
      | error e => rw [hvi] at h; exact absurd h (by simp)
      | ok vitems =>
        rw [hvi] at h; dsimp only at h
        cases hsl : sbomJsonVulnLoop Sev6.zero vitems with
        | error e => rw [hsl] at h; exact absurd h (by simp)
        | ok sev =>
          rw [hsl] at h; dsimp only at h
          cases hcl : pyLen components with
          | error e => rw [hcl] at h; exact absurd h (by simp)
          | ok ctotal =>
            rw [hcl] at h; dsimp only at h
            cases hci : pyIter components with
            | error e => rw [hci] at h; exact absurd h (by simp)
            | ok citems =>
              rw [hci] at h; dsimp only at h
              cases hcp : sbomCompLoop [] [] citems with
              | error e => rw [hcp] at h; exact absurd h (by simp)
              | ok btlic =>
                obtain ⟨bt, lic⟩ := btlic
                rw [hcp] at h; dsimp only at h
                cases hvl : pyLen vulnerabilities with
                | error e => rw [hvl] at h; exact absurd h (by simp)
                | ok vtotal =>
                  rw [hvl] at h; dsimp only at h
                  cases hbf : pyGetD data "bomFormat" (.str "CycloneDX") with
                  | error e => rw [hbf] at h; exact absurd h (by simp)
                  | ok bom_format =>
                    rw [hbf] at h
                    cases hsv : pyGetD data "specVersion" (.str "Unknown") with
                    | error e => rw [hsv] at h; exact absurd h (by simp)
                    | ok spec_version =>
                      rw [hsv] at h
                      cases hmd : pyGetD data "metadata" (.obj []) with
                      | error e => rw [hmd] at h; exact absurd h (by simp)
                      | ok metadata =>
                        rw [hmd] at h; dsimp only at h
                        have hct : ctotal = citems.length := by
                          have := pyLen_iter hci
                          rw [hcl] at this
                          exact (Except.ok.inj this)
                        have hvt : vtotal = vitems.length := by
                          have := pyLen_iter hvi
                          rw [hvl] at this
                          exact (Except.ok.inj this)
                        have hout := Except.ok.inj h
                        refine ⟨components, vulnerabilities, vitems, citems,
                          sev, bt, lic, ?_, ?_, ?_, ?_, ?_, ?_, ?_, ?_, ?_, ?_⟩ <;>
                          first
                            | rfl
                            | assumption
                            | ((rw [← hout]) <;> simp [hct, hvt])

/-! ### A sufficient well-shapedness condition for the SBOM JSON path -/

/-- The `id` fallback of a license object is safe: absent, falsy, or a
    hashable scalar. -/
def licIdOkB (lk : List (String × Json)) : Bool :=
  match lk.lookup "id" with
  | some iv => if iv.truthy then iv.hashable else true
  | none => true

/-- A license entry the component loop traverses without raising. -/
def licOkB (li : Json) : Bool :=
  match li with
  | .obj kvs =>
    match kvs.lookup "license" with
    | none => true
    | some lv =>
      match lv with
      | .obj lk =>
        match lk.lookup "name" with
        | some nv => if nv.truthy then nv.hashable else licIdOkB lk
        | none => licIdOkB lk
      | _ => false
  | _ => false

/-- A component entry the component loop traverses without raising. -/
def compOkB (c : Json) : Bool :=
  match c with
  | .obj kvs =>
    (match kvs.lookup "type" with
     | none => true
     | some t => t.hashable) &&
    (match kvs.lookup "licenses" with
     | none => true
     | some (.arr ls) => ls.all licOkB
     | some _ => false)
  | _ => false

/-- A vulnerability entry the severity loop traverses without raising. -/
def vulnOkB (v : Json) : Bool :=
  match v with
  | .obj kvs =>
    match kvs.lookup "ratings" with
    | none => true
    | some r =>
      if r.truthy then
        match r with
        | .arr (r0 :: _) =>
          match r0 with
          | .obj rk =>
            match rk.lookup "severity" with
            | none => true
            | some (.str _) => true
            | some _ => false
          | _ => false
        | _ => false
      else true
  | _ => false

/-- A JSON SBOM document whose `components` and `vulnerabilities` fields
    (when present) are well-shaped lists: the JSON path cannot raise on it. -/
def sbomOkB (data : Json) : Bool :=
  match data with
  | .obj kvs =>
    (match kvs.lookup "components" with
     | none => true
     | some (.arr cs) => cs.all compOkB
     | some _ => false) &&
    (match kvs.lookup "vulnerabilities" with
     | none => true
     | some (.arr vs) => vs.all vulnOkB
     | some _ => false)
  | _ => false

/-- Key membership, as tested by `pyIn`, agrees with `lookup`. -/
theorem anyKey_eq_lookup (kvs : List (String × Json)) (k : String) :
    kvs.any (fun p => p.1 == k) = (kvs.lookup k).isSome := by
  induction kvs with
  | nil => simp [List.lookup]
  | cons p rest ih =>
    obtain ⟨a, b⟩ := p
    by_cases h : a = k
    · simp [List.lookup, h]
    · have h1 : (a == k) = false := by
        simp only [beq_eq_false_iff_ne, ne_eq]; exact h
      have h2 : (k == a) = false := by
        simp only [beq_eq_false_iff_ne, ne_eq]; exact fun hh => h hh.symm
      simp [List.lookup, h1, h2, ih]

/-- Well-shaped license entries never make the license loop raise. -/
theorem sbomLicLoop_ok :
    ∀ (items : List Json) (acc : List Json),
      (∀ li ∈ items, licOkB li = true) →
      ∃ acc', sbomLicLoop acc items = .ok acc' := by
  intro items
  induction items with
  | nil => intro acc h; exact ⟨acc, rfl⟩
  | cons li rest ih =>
    intro acc h
    have hli := h li (by simp)
    have hrest : ∀ x ∈ rest, licOkB x = true := fun x hx => h x (by simp [hx])
    match li, hli with
    | .obj kvs, hli =>
      rw [sbomLicLoop]
      have hin : pyIn "license" (.obj kvs) =
          .ok ((kvs.lookup "license").isSome) := by
        rw [pyIn]; rw [anyKey_eq_lookup]
      rw [hin]
      dsimp only
      unfold licOkB at hli
      dsimp only at hli
      cases hlk : kvs.lookup "license" with
      | none =>
        simp only [Option.isSome_none, Bool.false_eq_true, if_false]
        exact ih acc hrest
      | some lv =>
        rw [hlk] at hli
        simp only [Option.isSome_some, if_true]
        have hsub : pySubscript (.obj kvs) "license" = .ok lv := by
          simp [pySubscript, hlk]
        rw [hsub]
        dsimp only
        match lv, hli with
        | .obj lk, hli =>
          dsimp only at hli
          have hget : pyGet (.obj lk) "name" =
              .ok ((lk.lookup "name").getD .null) := by
            simp [pyGet, pyGetD]
          rw [hget]
          dsimp only
          have hid : licIdOkB lk = true →
              ((lk.lookup "id").getD .null).truthy = true →
              ((lk.lookup "id").getD .null).hashable = true := by
            intro hok htr
            cases hi : lk.lookup "id" with
            | none =>
              rw [hi] at htr
              exact absurd htr (by simp [Json.truthy])
            | some iv' =>
              rw [hi] at htr
              unfold licIdOkB at hok
              rw [hi] at hok
              dsimp only at hok
              simp only [Option.getD_some] at htr
              rw [if_pos htr] at hok
              simp only [hi, Option.getD_some]
              exact hok
          have hidget : pyGet (.obj lk) "id" =
              .ok ((lk.lookup "id").getD .null) := by
            simp [pyGet, pyGetD]
          cases hn : lk.lookup "name" with
          | some nv =>
            rw [hn] at hli
            dsimp only at hli
            simp only [Option.getD_some]
            by_cases htr : nv.truthy
            · rw [if_pos htr] at hli ⊢
              try dsimp only
              rw [if_pos htr, if_pos hli]
              exact ih _ hrest
            · rw [if_neg htr] at hli ⊢
              rw [hidget]
              try dsimp only
              cases hiv : ((lk.lookup "id").getD .null).truthy with
              | false =>
                simp only [Bool.false_eq_true, if_false]
                exact ih acc hrest
              | true =>
                rw [if_pos rfl]
                rw [hid hli hiv]
                rw [if_pos rfl]
                exact ih _ hrest
          | none =>
            rw [hn] at hli
            dsimp only at hli
            simp only [Option.getD_none]
            rw [if_neg (by simp [Json.truthy])]
            rw [hidget]
            dsimp only
            cases hiv : ((lk.lookup "id").getD .null).truthy with
            | false =>
              simp only [Bool.false_eq_true, if_false]
              exact ih acc hrest
            | true =>
              rw [if_pos rfl]
              rw [hid hli hiv]
              rw [if_pos rfl]
              exact ih _ hrest

/-- Well-shaped component entries never make the component loop raise. -/
theorem sbomCompLoop_ok :
    ∀ (items : List Json) (bt : List (Json × Nat)) (lic : List Json),
      (∀ c ∈ items, compOkB c = true) →
      ∃ r, sbomCompLoop bt lic items = .ok r := by
  intro items
  induction items with
  | nil => intro bt lic h; exact ⟨(bt, lic), rfl⟩
  | cons comp rest ih =>
    intro bt lic h
    have hc := h comp (by simp)
    have hrest : ∀ x ∈ rest, compOkB x = true := fun x hx => h x (by simp [hx])
    match comp, hc with
    | .obj kvs, hc =>
      unfold compOkB at hc
      dsimp only at hc
      rw [Bool.and_eq_true] at hc
      obtain ⟨htype, hlics⟩ := hc
      rw [sbomCompLoop]
      have hget : pyGetD (.obj kvs) "type" (.str "unknown") =
          .ok ((kvs.lookup "type").getD (.str "unknown")) := rfl
      rw [hget]
      dsimp only
      have hhash : ((kvs.lookup "type").getD (.str "unknown")).hashable = true := by
        cases ht : kvs.lookup "type" with
        | none => rfl
        | some t => rw [ht] at htype; simpa using htype
      rw [if_pos hhash]
      have hgl : pyGetD (.obj kvs) "licenses" (.arr []) =
          .ok ((kvs.lookup "licenses").getD (.arr [])) := rfl
      rw [hgl]
      dsimp only
      cases hl : kvs.lookup "licenses" with
      | none =>
        simp only [Option.getD_none]
        rw [show pyIter (.arr []) = .ok ([] : List Json) from rfl]
        dsimp only
        rw [show sbomLicLoop lic [] = .ok lic from rfl]
        dsimp only
        exact ih _ _ hrest
      | some lv =>
        rw [hl] at hlics
        simp only [Option.getD_some]
        match lv, hlics with
        | .arr ls, hlics =>
          rw [show pyIter (.arr ls) = .ok ls from rfl]
          dsimp only
          have hall : ∀ li ∈ ls, licOkB li = true := by
            intro li hli
            exact List.all_eq_true.mp hlics li hli
          obtain ⟨acc', hacc⟩ := sbomLicLoop_ok ls lic hall
          rw [hacc]
          dsimp only
          exact ih _ _ hrest

/-- Well-shaped vulnerability entries never make the severity loop raise. -/
theorem sbomJsonVulnLoop_ok :
    ∀ (items : List Json) (c : Sev6),
      (∀ v ∈ items, vulnOkB v = true) →
      ∃ c', sbomJsonVulnLoop c items = .ok c' := by
  intro items
  induction items with
  | nil => intro c h; exact ⟨c, rfl⟩
  | cons v rest ih =>
    intro c h
    have hv := h v (by simp)
    have hrest : ∀ x ∈ rest, vulnOkB x = true := fun x hx => h x (by simp [hx])
    match v, hv with
    | .obj kvs, hv =>
      unfold vulnOkB at hv
      dsimp only at hv
      rw [sbomJsonVulnLoop]
      have hget : pyGetD (.obj kvs) "ratings" (.arr []) =
          .ok ((kvs.lookup "ratings").getD (.arr [])) := rfl
      rw [hget]
      dsimp only
      cases hr : kvs.lookup "ratings" with
      | none =>
        simp only [Option.getD_none]
        rw [if_neg (by simp [Json.truthy])]
        exact ih c hrest
      | some r =>
        rw [hr] at hv
        dsimp only at hv
        simp only [Option.getD_some]
        by_cases ht : r.truthy
        · rw [if_pos ht] at hv ⊢
          match r, ht, hv with
          | .arr (r0 :: rs), ht, hv =>
            dsimp only at hv
            rw [show pyIndex0 (.arr (r0 :: rs)) = .ok r0 from rfl]
            dsimp only
            match r0, hv with
            | .obj rk, hv =>
              dsimp only at hv
              have hgs : pyGetD (.obj rk) "severity" (.str "unknown") =
                  .ok ((rk.lookup "severity").getD (.str "unknown")) := rfl
              rw [hgs]
              dsimp only
              cases hs : rk.lookup "severity" with
              | none =>
                simp only [Option.getD_none]
                rw [show pyLower (.str "unknown") = .ok "unknown" from rfl]
                dsimp only
                exact ih _ hrest
              | some sv =>
                rw [hs] at hv
                simp only [Option.getD_some]
                match sv, hv with
                | .str s, hv =>
                  rw [show pyLower (.str s) = .ok (strLower s) from rfl]
                  dsimp only
                  exact ih _ hrest
        · rw [if_neg ht]
          exact ih c hrest

/-- A well-shaped JSON SBOM document parses successfully. -/
theorem parse_sbom_json_ok {data : Json} (h : sbomOkB data = true) :
    ∃ out, parse_sbom_json data = .ok out := by
  match data, h with
  | .obj kvs, h =>
    unfold sbomOkB at h
    dsimp only at h
    rw [Bool.and_eq_true] at h
    obtain ⟨hcomp, hvuln⟩ := h
    have hvl : ∃ vitems, pyIter ((kvs.lookup "vulnerabilities").getD (.arr []))
        = .ok vitems ∧ (∀ v ∈ vitems, vulnOkB v = true) := by
      cases hv : kvs.lookup "vulnerabilities" with
      | none => exact ⟨[], rfl, by simp⟩
      | some lv =>
        rw [hv] at hvuln
        match lv, hvuln with
        | .arr vs, hvuln =>
          exact ⟨vs, rfl, fun v hv => List.all_eq_true.mp hvuln v hv⟩
    have hclx : ∃ citems, pyIter ((kvs.lookup "components").getD (.arr []))
        = .ok citems ∧ (∀ c ∈ citems, compOkB c = true) := by
      cases hc : kvs.lookup "components" with
      | none => exact ⟨[], rfl, by simp⟩
      | some lv =>
        rw [hc] at hcomp
        match lv, hcomp with
        | .arr cs, hcomp =>
          exact ⟨cs, rfl, fun c hc => List.all_eq_true.mp hcomp c hc⟩
    obtain ⟨vitems, hvi, hvall⟩ := hvl
    obtain ⟨citems, hci, hcall⟩ := hclx
    obtain ⟨sev, hsev⟩ := sbomJsonVulnLoop_ok vitems Sev6.zero hvall
    obtain ⟨r, hr⟩ := sbomCompLoop_ok citems [] [] hcall
    obtain ⟨bt, lic⟩ := r
    unfold parse_sbom_json
    rw [show pyGetD (.obj kvs) "components" (.arr []) =
      .ok ((kvs.lookup "components").getD (.arr [])) from rfl]
    dsimp only
    rw [show pyGetD (.obj kvs) "vulnerabilities" (.arr []) =
      .ok ((kvs.lookup "vulnerabilities").getD (.arr [])) from rfl]
    dsimp only
    rw [hvi]
    dsimp only
    rw [hsev]
    dsimp only
    rw [pyLen_iter hci]
    dsimp only
    rw [hci]
    dsimp only
    rw [hr]
    dsimp only
    rw [pyLen_iter hvi]
    dsimp only
    exact ⟨_, rfl⟩

/-- A static-analysis payload whose single `bugs` measure carries the given
    value string. -/
def mkBugsDoc (s : String) : Json :=
  .obj [("component", .obj [("measures", .arr [
    .obj [("metric", .str "bugs"), ("value", .str s)]])])]

/-- A static-analysis payload whose single `coverage` measure carries the
    given value string. -/
def mkCoverageDoc (s : String) : Json :=
  .obj [("component", .obj [("measures", .arr [
    .obj [("metric", .str "coverage"), ("value", .str s)]])])]

/-- A valid-JSON static-analysis object without a `component` key parses to
    all defaults. -/
theorem sonar_defaults_no_component (kvs : List (String × Json))
    (h : kvs.lookup "component" = none) :
    parse_sonarqube_report (.jsonDoc (.obj kvs)) =
      .ok ⟨.str "Unknown", .str "Unknown", 0, 0, 0, ⟨0, 1⟩, ⟨0, 1⟩, 0, 0, 0, 0,
        .str "A", .str "A", .str "A", .obj kvs⟩ := by
  unfold parse_sonarqube_report sonarBody
  dsimp only
  rw [show pyGetD (.obj kvs) "component" (.obj []) =
    .ok ((kvs.lookup "component").getD (.obj [])) from rfl, h]
  rfl

/-- A `component` object without a `measures` key parses to defaults, with
    the key and name taken from the component. -/
theorem sonar_defaults_no_measures (ckvs : List (String × Json))
    (h : ckvs.lookup "measures" = none) :
    parse_sonarqube_report (.jsonDoc (.obj [("component", .obj ckvs)])) =
      .ok ⟨(ckvs.lookup "key").getD (.str "Unknown"),
        (ckvs.lookup "name").getD (.str "Unknown"), 0, 0, 0, ⟨0, 1⟩, ⟨0, 1⟩,
        0, 0, 0, 0, .str "A", .str "A", .str "A",
        .obj [("component", .obj ckvs)]⟩ := by
  unfold parse_sonarqube_report sonarBody
  dsimp only
  rw [show pyGetD (.obj [("component", .obj ckvs)]) "component" (.obj []) =
    .ok (.obj ckvs) from rfl]
  dsimp only
  rw [show pyGetD (.obj ckvs) "measures" (.arr []) =
    .ok ((ckvs.lookup "measures").getD (.arr [])) from rfl, h]
  rfl

/-- When the `bugs` value string is not an integer literal, the coercion
    fails and the whole parse raises. -/
theorem sonar_badint (s : String) (h : pyStrToInt s = none) :
    parse_sonarqube_report (.jsonDoc (mkBugsDoc s)) = .error .valueError := by
  have h1 : pyInt (Json.str s) = .error .valueError := by
    unfold pyInt; dsimp only; rw [h]
  simp [parse_sonarqube_report, sonarBody, mkBugsDoc, pyGetD, pyGet, pyIter,
    buildMetrics, metricsGet, dgetPy, dsetPy, pyEq, Json.hashable,
    List.lookup, h1]

/-- When the `coverage` value string is not a float literal, the coercion
    fails and the whole parse raises. -/
theorem sonar_badfloat (s : String) (h : pyStrToFloat s = none) :
    parse_sonarqube_report (.jsonDoc (mkCoverageDoc s)) = .error .valueError := by
  have h1 : pyFloat (Json.str s) = .error .valueError := by
    unfold pyFloat; dsimp only; rw [h]
  simp [parse_sonarqube_report, sonarBody, mkCoverageDoc, pyGetD, pyGet, pyIter,
    buildMetrics, metricsGet, dgetPy, dsetPy, pyEq, Json.hashable,
    List.lookup, h1, pyInt, jint, PyRat.ofInt, PyRat.trunc]

/-- The structured image-scan normalizer on a single-result payload: every
    record is counted, each under the bucket of its upper-cased severity. -/
theorem trivy_general (l : List String) :
    parse_trivy_report (.jsonDoc (mkTrivyDoc l)) =
      .ok ⟨.str "Unknown", .str "Unknown", .str "Unknown", l.length,
        trivyCounts l,
        .arr [.obj [("Vulnerabilities", .arr (l.map sevRec))]],
        mkTrivyDoc l⟩ := by
  have hloop : trivyResultLoop (Sev5.zero, 0)
      [.obj [("Vulnerabilities", .arr (l.map sevRec))]] =
      .ok (trivyCounts l, l.length) := by
    rw [trivyResultLoop]
    rw [show pyGetD (.obj [("Vulnerabilities", .arr (l.map sevRec))])
      "Vulnerabilities" (.arr []) = .ok (.arr (l.map sevRec)) from rfl]
    dsimp only
    rw [show pyIter (.arr (l.map sevRec)) = .ok (l.map sevRec) from rfl]
    dsimp only
    rw [trivyVulnLoop_map]
    dsimp only
    rw [trivyResultLoop]
    simp [trivyCounts]
  unfold parse_trivy_report trivyBody mkTrivyDoc
  dsimp only
  rw [show pyGetD
    (Json.obj [("Results",
      Json.arr [Json.obj [("Vulnerabilities", Json.arr (l.map sevRec))]])])
    "Results" (.arr []) =
    .ok (.arr [Json.obj [("Vulnerabilities", Json.arr (l.map sevRec))]])
    from rfl]
  dsimp only
  rw [show pyIter (Json.arr [Json.obj [("Vulnerabilities",
    Json.arr (l.map sevRec))]]) =
    .ok [Json.obj [("Vulnerabilities", Json.arr (l.map sevRec))]] from rfl]
  dsimp only
  rw [hloop]
  rfl

/-! ### Concrete inputs for the claims -/

/-- Scenario A input for the static-analysis normalizer. -/
def scenarioA : Json :=
  .obj [("component", .obj [("key", .str "k"), ("name", .str "n"),
    ("measures", .arr [
      .obj [("metric", .str "bugs"), ("value", .str "5")],
      .obj [("metric", .str "coverage"), ("value", .str "73.2")]])])]

/-- The normalized report for scenario A. -/
def scenarioAParsed : SonarParsed :=
  ⟨.str "k", .str "n", 5, 0, 0, ⟨732, 10⟩, ⟨0, 1⟩, 0, 0, 0, 0,
   .str "A", .str "A", .str "A", scenarioA⟩

/-- A valid-JSON static-analysis payload whose `bugs` value is not numeric. -/
def c6bad : Json :=
  .obj [("component", .obj [("measures", .arr [
    .obj [("metric", .str "bugs"), ("value", .str "n/a")]])])]

/-- Scenario B input for the structured image-scan normalizer. -/
def scenarioB : Json := mkTrivyDoc ["HIGH", "high", "CRITICAL", "bogus"]

/-- The normalized report for scenario B. -/
def scenarioBParsed : TrivyParsed :=
  ⟨.str "Unknown", .str "Unknown", .str "Unknown", 4, ⟨1, 2, 0, 0, 1⟩,
   .arr [.obj [("Vulnerabilities",
     .arr (["HIGH", "high", "CRITICAL", "bogus"].map sevRec))]],
   scenarioB⟩

/-- Scenario C input: an image scan with 2 critical and 3 high findings. -/
def scenarioC : Json :=
  mkTrivyDoc ["CRITICAL", "CRITICAL", "HIGH", "HIGH", "HIGH"]

/-- The normalized report for scenario C. -/
def scenarioCParsed : TrivyParsed :=
  ⟨.str "Unknown", .str "Unknown", .str "Unknown", 5, ⟨2, 3, 0, 0, 0⟩,
   .arr [.obj [("Vulnerabilities",
     .arr (["CRITICAL", "CRITICAL", "HIGH", "HIGH", "HIGH"].map sevRec))]],
   scenarioC⟩

/-- A record with a lower-case `severity` key, the shape
    `calculate_vulnerability_risk` actually reads. -/
def lsev (s : String) : Json := .obj [("severity", .str s)]

/-- A JSON SBOM with one vulnerability record carrying no `ratings` entry. -/
def c1doc : Json := .obj [("vulnerabilities", .arr [.obj []])]

/-- The normalized report for `c1doc`. -/
def c1parsed : SbomParsed :=
  ⟨.str "CycloneDX", .str "Unknown", .obj [],
   ⟨0, [], [], none⟩, ⟨1, Sev6.zero, none⟩, .jsonDoc c1doc⟩

/-- A bare CycloneDX XML component element. -/
def comp0 : XmlElem := .mk "component" [] none []

/-- An un-namespaced CycloneDX XML document with exactly 101 components. -/
def xml101 : XmlElem :=
  .mk "bom" [] none [.mk "components" [] none (List.replicate 101 comp0)]

/-- SonarQube input for the roll-up scenario: 3 bugs and 2 vulnerabilities. -/
def c3sonarDoc : Json :=
  .obj [("component", .obj [("key", .str "k"), ("name", .str "n"),
    ("measures", .arr [
      .obj [("metric", .str "bugs"), ("value", .str "3")],
      .obj [("metric", .str "vulnerabilities"), ("value", .str "2")]])])]

/-- The normalized report for `c3sonarDoc`. -/
def c3sonarParsed : SonarParsed :=
  ⟨.str "k", .str "n", 3, 2, 0, ⟨0, 1⟩, ⟨0, 1⟩, 0, 0, 0, 0,
   .str "A", .str "A", .str "A", c3sonarDoc⟩

/-- Image-scan input for the roll-up scenario: one HIGH vulnerability. -/
def c3trivyDoc : Json := mkTrivyDoc ["HIGH"]

/-- The normalized report for `c3trivyDoc`. -/
def c3trivyParsed : TrivyParsed :=
  ⟨.str "Unknown", .str "Unknown", .str "Unknown", 1, ⟨0, 1, 0, 0, 0⟩,
   .arr [.obj [("Vulnerabilities", .arr (["HIGH"].map sevRec))]],
   c3trivyDoc⟩

/-- A well-shaped CycloneDX JSON document for the C5 witness. -/
def c5wdoc : Json :=
  .obj [("bomFormat", .str "CycloneDX"),
    ("components", .arr [.obj [("type", .str "library"),
      ("licenses", .arr [.obj [("license", .obj [("name", .str "MIT")])]])]]),
    ("vulnerabilities", .arr [.obj [("ratings",
      .arr [.obj [("severity", .str "high")]])]])]

/-- A small SBOM JSON document for the C4 witness. -/
def c4wdoc : Json :=
  .obj [("components", .arr [.obj [("type", .str "library")],
    .obj [("type", .str "application")]])]

/-- The normalized report for `c4wdoc`. -/
def c4wparsed : SbomParsed :=
  ⟨.str "CycloneDX", .str "Unknown", .obj [],
   ⟨2, [(.str "library", 1), (.str "application", 1)], [], none⟩,
   ⟨0, Sev6.zero, none⟩, .jsonDoc c4wdoc⟩

/-! ### Claim theorems -/

/-- C9: the static-analysis normalizer on scenario A returns bugs = 5,
    coverage = 73.2, vulnerabilities = 0 and sqale_rating = "A" (absent
    integer counts default to 0, absent ratios to 0.0, absent letter ratings
    to "A"). -/
theorem C9_scenarioA :
    parse_sonarqube_report (.jsonDoc scenarioA) = .ok scenarioAParsed ∧
    scenarioAParsed.bugs = 5 ∧
    scenarioAParsed.coverage = ⟨732, 10⟩ ∧
    scenarioAParsed.vulnerabilities = 0 ∧
    scenarioAParsed.sqale_rating = .str "A" := by decide

/-- C10: there is valid-JSON static-analysis input on which the normalizer
    raises: whenever the value string of a `bugs` (resp. `coverage`) measure
    is not parseable as the expected number, the `int()` (resp. `float()`)
    coercion fails and the parse raises even though the envelope JSON parsed
    successfully. -/
theorem C10_numeric_coercion_raises :
    (∀ s, pyStrToInt s = none →
      parse_sonarqube_report (.jsonDoc (mkBugsDoc s)) = .error .valueError) ∧
    (∀ s, pyStrToFloat s = none →
      parse_sonarqube_report (.jsonDoc (mkCoverageDoc s)) =
        .error .valueError) :=
  ⟨sonar_badint, sonar_badfloat⟩

/-- Witness for C10 at the concrete value string "n/a". -/
theorem C10_witness :
    parse_sonarqube_report (.jsonDoc (mkBugsDoc "n/a")) = .error .valueError ∧
    parse_sonarqube_report (.jsonDoc (mkCoverageDoc "n/a")) =
      .error .valueError :=
  ⟨C10_numeric_coercion_raises.1 "n/a" (by decide),
   C10_numeric_coercion_raises.2 "n/a" (by decide)⟩

/-- C6 (counterexample): the input `{"component":{"measures":[{"metric":
    "bugs","value":"n/a"}]}}` is valid JSON, yet the static-analysis
    normalizer raises — so "raises exactly when the top-level payload is not
    valid JSON" is false. -/
theorem C6_counterexample :
    parse_sonarqube_report (.jsonDoc c6bad) = .error .valueError := by decide

/-- C6 (amended): the static-analysis normalizer raises when the top-level
    payload is not valid JSON (and returns no partial result); a missing
    `component` object or missing `measures` list is absorbed via defaulting;
    but the raise condition is not exact — a failed numeric coercion inside a
    measure also raises. -/
theorem C6_amended :
    parse_sonarqube_report .neither = .error .valueError ∧
    (∀ x, parse_sonarqube_report (.xmlDoc x) = .error .valueError) ∧
    (∀ kvs, kvs.lookup "component" = none →
      parse_sonarqube_report (.jsonDoc (.obj kvs)) =
        .ok ⟨.str "Unknown", .str "Unknown", 0, 0, 0, ⟨0, 1⟩, ⟨0, 1⟩,
          0, 0, 0, 0, .str "A", .str "A", .str "A", .obj kvs⟩) ∧
    (∀ ckvs, ckvs.lookup "measures" = none →
      parse_sonarqube_report (.jsonDoc (.obj [("component", .obj ckvs)])) =
        .ok ⟨(ckvs.lookup "key").getD (.str "Unknown"),
          (ckvs.lookup "name").getD (.str "Unknown"), 0, 0, 0, ⟨0, 1⟩,
          ⟨0, 1⟩, 0, 0, 0, 0, .str "A", .str "A", .str "A",
          .obj [("component", .obj ckvs)]⟩) :=
  ⟨rfl, fun _ => rfl, sonar_defaults_no_component, sonar_defaults_no_measures⟩

/-- Witness for C6 at the empty object and at a component without measures. -/
theorem C6_amended_witness :
    parse_sonarqube_report (.jsonDoc (.obj [])) =
      .ok ⟨.str "Unknown", .str "Unknown", 0, 0, 0, ⟨0, 1⟩, ⟨0, 1⟩,
        0, 0, 0, 0, .str "A", .str "A", .str "A", .obj []⟩ ∧
    parse_sonarqube_report
        (.jsonDoc (.obj [("component", .obj [("key", .str "k")])])) =
      .ok ⟨.str "k", .str "Unknown", 0, 0, 0, ⟨0, 1⟩, ⟨0, 1⟩,
        0, 0, 0, 0, .str "A", .str "A", .str "A",
        .obj [("component", .obj [("key", .str "k")])]⟩ :=
  ⟨C6_amended.2.2.1 [] rfl, C6_amended.2.2.2 [("key", .str "k")] rfl⟩

/-- C8: the structured image-scan normalizer on scenario B returns
    by_severity = (CRITICAL 1, HIGH 2, MEDIUM 0, LOW 0, UNKNOWN 1) and
    total = 4; in general every record is counted under the bucket of its
    upper-cased severity, and labels matching no known severity fall into
    UNKNOWN. -/
theorem C8_severity_classification :
    (parse_trivy_report (.jsonDoc scenarioB) = .ok scenarioBParsed ∧
     scenarioBParsed.by_severity = ⟨1, 2, 0, 0, 1⟩ ∧
     scenarioBParsed.vuln_total = 4) ∧
    (∀ l : List String, parse_trivy_report (.jsonDoc (mkTrivyDoc l)) =
      .ok ⟨.str "Unknown", .str "Unknown", .str "Unknown", l.length,
        trivyCounts l,
        .arr [.obj [("Vulnerabilities", .arr (l.map sevRec))]],
        mkTrivyDoc l⟩) :=
  ⟨by decide, trivy_general⟩

/-- C2 (code bug): for the stored normalized image-scan report of scenario C
    (2 critical + 3 high), `calculate_vulnerability_risk` returns 0 rather
    than the specified 1.2: the stored report keeps `vulnerabilities` as a
    summary dict (iterating it yields string keys whose `.get` raises, and
    the bare `except` returns 0), and the heatmap route passes the parsed
    dict — whose missing `.data` attribute also collapses the result to 0.
    The body does implement the weighted formula: fed a record list of the
    shape it reads, it returns 1.2. -/
theorem C2_code_eval :
    parse_trivy_report (.jsonDoc scenarioC) = .ok scenarioCParsed ∧
    calculate_vulnerability_risk (some ⟨storedTrivyJson scenarioCParsed⟩)
      none = PyRat.ofNat 0 ∧
    calculate_vulnerability_risk_heatmap (some (storedTrivyJson
      scenarioCParsed)) none = PyRat.ofNat 0 ∧
    calculate_vulnerability_risk none none = PyRat.ofNat 0 ∧
    calculate_vulnerability_risk_data (.obj [("vulnerabilities", .arr
      [lsev "CRITICAL", lsev "CRITICAL", lsev "HIGH", lsev "HIGH",
       lsev "HIGH"])]) = ⟨12, 10⟩ ∧
    (PyRat.ofNat 0).eqv ⟨12, 10⟩ = false := by decide

/-- C3 (code bug): for a project holding the stored normalized reports of
    `c3sonarDoc` (3 bugs, 2 vulnerabilities) and `c3trivyDoc` (one HIGH
    image-scan vulnerability), `calculate_severity_counts` over the report
    rows yields (critical 0, high 2, medium 3, low 0): the SonarQube mapping
    (vulnerabilities→high, bugs→medium) does fire, but the image-scan HIGH is
    never added because the stored report keeps vulnerabilities under
    `results[*].Vulnerabilities`, not as a top-level record list — the claim
    expects high = 3. On the actual heatmap call path every bucket is 0.
    The SBOM argument never influences the roll-up. -/
theorem C3_code_eval :
    parse_sonarqube_report (.jsonDoc c3sonarDoc) = .ok c3sonarParsed ∧
    parse_trivy_report (.jsonDoc c3trivyDoc) = .ok c3trivyParsed ∧
    calculate_severity_counts (some ⟨storedSonarJson c3sonarParsed⟩) none
      (some ⟨storedTrivyJson c3trivyParsed⟩) =
      ⟨PyRat.ofNat 0, PyRat.ofNat 2, PyRat.ofNat 3, PyRat.ofNat 0⟩ ∧
    calculate_severity_counts_heatmap (some (storedSonarJson c3sonarParsed))
      none (some (storedTrivyJson c3trivyParsed)) = Counts4.zero ∧
    (∀ sq sb sb' tv, calculate_severity_counts sq sb tv =
      calculate_severity_counts sq sb' tv) := by
  refine ⟨by decide, by decide, by decide, by decide, fun sq sb sb' tv => rfl⟩

/-- C5 (counterexample): the input "5" parses as valid JSON (a number), yet
    the SBOM normalizer raises — `.get` on a non-dict is an AttributeError,
    re-raised as ValueError — so "for every input that parses as valid JSON,
    the normalizer does not raise" is false. -/
theorem C5_counterexample :
    parse_sbom_report (.jsonDoc (jint 5)) = .error .valueError := by decide

/-- C5 (amended): the SBOM normalizer raises when both JSON and XML parsing
    fail; it never raises on well-formed XML; and on valid JSON it does not
    raise provided the document is an object whose components/vulnerabilities
    fields are well-shaped lists — but a valid-JSON document of the wrong
    shape (e.g. a bare scalar) does raise. -/
theorem C5_amended :
    parse_sbom_report .neither = .error .valueError ∧
    (∀ x, ∃ out, parse_sbom_report (.xmlDoc x) = .ok out) ∧
    (∀ data, sbomOkB data = true →
      ∃ out, parse_sbom_report (.jsonDoc data) = .ok out) := by
  refine ⟨rfl, fun x => ⟨parse_sbom_xml x, rfl⟩, fun data h => ?_⟩
  obtain ⟨out, ho⟩ := parse_sbom_json_ok h
  refine ⟨out, ?_⟩
  unfold parse_sbom_report
  dsimp only
  rw [ho]

/-- Witness for C5 at a well-shaped CycloneDX JSON document. -/
theorem C5_amended_witness :
    ∃ out, parse_sbom_report (.jsonDoc c5wdoc) = .ok out :=
  C5_amended.2.2 c5wdoc (by decide)

/-- C1 (counterexample): a JSON SBOM with one vulnerability record carrying
    no `ratings` entry yields total = 1 but an all-zero severity map, so the
    by_severity values do not sum to total. -/
theorem C1_counterexample :
    parse_sbom_report (.jsonDoc c1doc) = .ok c1parsed ∧
    c1parsed.vulnerabilities.total = 1 ∧
    c1parsed.vulnerabilities.by_severity.sum = 0 ∧
    c1parsed.vulnerabilities.by_severity.sum ≠
      c1parsed.vulnerabilities.total := by decide

/-- C1 (amended): on both SBOM paths the by_severity values sum to the number
    of counted vulnerability records — on the JSON path the records with a
    truthy `ratings` entry, on the XML path the elements among the first 50
    that carry a severity-bearing rating — so the sum is at most the reported
    total, with equality only when every record is counted (all records
    rated, and at most 50 on the XML path). -/
theorem C1_amended :
    (∀ data out, parse_sbom_report (.jsonDoc data) = .ok out →
      out.vulnerabilities.by_severity.sum ≤ out.vulnerabilities.total ∧
      ∃ vulns vitems,
        pyGetD data "vulnerabilities" (.arr []) = .ok vulns ∧
        pyIter vulns = .ok vitems ∧
        out.vulnerabilities.by_severity.sum = vitems.countP ratedB ∧
        out.vulnerabilities.total = vitems.length) ∧
    (∀ x, (parse_sbom_xml x).vulnerabilities.by_severity.sum =
        ((sbomXmlVulns (detectNs x) x).take 50).countP
          (xmlRatedB (detectNs x)) ∧
      (parse_sbom_xml x).vulnerabilities.total =
        (sbomXmlVulns (detectNs x) x).length ∧
      (parse_sbom_xml x).vulnerabilities.by_severity.sum ≤
        (parse_sbom_xml x).vulnerabilities.total) := by
  constructor
  · intro data out h
    unfold parse_sbom_report at h
    dsimp only at h
    cases hj : parse_sbom_json data with
    | error e => rw [hj] at h; exact absurd h (by simp)
    | ok r =>
      rw [hj] at h
      dsimp only at h
      have hro : r = out := Except.ok.inj h
      subst hro
      obtain ⟨comps, vulns, vitems, citems, sev, bt, lic, hc, hv, hvi, hsl,
        hci, hcp, hct, hbt, hvt, hbs⟩ := parse_sbom_json_inv hj
      have hsum := sbomJsonVulnLoop_sum vitems hsl
      have hz : Sev6.zero.sum = 0 := rfl
      rw [hz] at hsum
      constructor
      · rw [hbs, hvt, hsum]
        simpa using List.countP_le_length ratedB
      · exact ⟨vulns, vitems, hv, hvi, by rw [hbs, hsum]; omega, hvt⟩
  · intro x
    have hf := xmlVulnLoop_facts ((sbomXmlVulns (detectNs x) x).take 50)
      (detectNs x) Sev6.zero
    have h1 : (parse_sbom_xml x).vulnerabilities.by_severity =
        (xmlVulnLoop (detectNs x) Sev6.zero
          ((sbomXmlVulns (detectNs x) x).take 50)).1 := rfl
    have h2 : (parse_sbom_xml x).vulnerabilities.total =
        (sbomXmlVulns (detectNs x) x).length := rfl
    have hz : Sev6.zero.sum = 0 := rfl
    refine ⟨?_, h2, ?_⟩
    · rw [h1, hf.1, hz]
      omega
    · rw [h1, h2, hf.1, hz]
      have hle := List.countP_le_length (p := xmlRatedB (detectNs x))
        (l := (sbomXmlVulns (detectNs x) x).take 50)
      have hlt := List.length_take 50 (sbomXmlVulns (detectNs x) x)
      have hmin : min 50 (sbomXmlVulns (detectNs x) x).length ≤
          (sbomXmlVulns (detectNs x) x).length := Nat.min_le_right _ _
      omega

/-- Witness for C1 (amended), JSON part, at the counterexample document. -/
theorem C1_amended_witness :
    c1parsed.vulnerabilities.by_severity.sum ≤ c1parsed.vulnerabilities.total ∧
    ∃ vulns vitems,
      pyGetD c1doc "vulnerabilities" (.arr []) = .ok vulns ∧
      pyIter vulns = .ok vitems ∧
      c1parsed.vulnerabilities.by_severity.sum = vitems.countP ratedB ∧
      c1parsed.vulnerabilities.total = vitems.length :=
  C1_amended.1 c1doc c1parsed (by decide)

/-- C4 (counterexample): on an XML SBOM with 101 component elements the
    per-type counts sum to 100 (only the first 100 components are tallied)
    while the reported total is 101 — so the by_type counts do not sum to the
    total for XML documents with more than 100 components. -/
theorem C4_counterexample :
    parse_sbom_report (.xmlDoc xml101) = .ok (parse_sbom_xml xml101) ∧
    countSum (parse_sbom_xml xml101).components.by_type = 100 ∧
    (parse_sbom_xml xml101).components.total = 101 ∧
    countSum (parse_sbom_xml xml101).components.by_type ≠
      (parse_sbom_xml xml101).components.total := by decide

/-- C4 (amended): on the JSON path the per-type counts of every successful
    parse sum exactly to the reported component total; on the XML path they
    sum to min(total, 100), so the round-trip holds only up to the
    100-component detail cap. -/
theorem C4_amended :
    (∀ data out, parse_sbom_report (.jsonDoc data) = .ok out →
      countSum out.components.by_type = out.components.total) ∧
    (∀ x, countSum (parse_sbom_xml x).components.by_type =
      min (parse_sbom_xml x).components.total 100) := by
  constructor
  · intro data out h
    unfold parse_sbom_report at h
    dsimp only at h
    cases hj : parse_sbom_json data with
    | error e => rw [hj] at h; exact absurd h (by simp)
    | ok r =>
      rw [hj] at h
      dsimp only at h
      have hro : r = out := Except.ok.inj h
      subst hro
      obtain ⟨comps, vulns, vitems, citems, sev, bt, lic, hc, hv, hvi, hsl,
        hci, hcp, hct, hbt, hvt, hbs⟩ := parse_sbom_json_inv hj
      have hsum := sbomCompLoop_sum citems hcp
      have hz : countSum [] = 0 := rfl
      rw [hz] at hsum
      rw [hbt, hct, hsum]
      omega
  · intro x
    have hf := (xmlCompLoop_facts
      ((sbomXmlComponents (detectNs x) x).take 100) (detectNs x) [] []).1
    have h1 : (parse_sbom_xml x).components.by_type =
        (xmlCompLoop (detectNs x) [] []
          ((sbomXmlComponents (detectNs x) x).take 100)).1 := rfl
    have h2 : (parse_sbom_xml x).components.total =
        (sbomXmlComponents (detectNs x) x).length := rfl
    have hz : countSum [] = 0 := rfl
    rw [h1, h2, hf, hz, List.length_take]
    omega

/-- Witness for C4 (amended), JSON part, at a two-component document. -/
theorem C4_amended_witness :
    countSum c4wparsed.components.by_type = c4wparsed.components.total :=
  C4_amended.1 c4wdoc c4wparsed (by decide)

/-- C7: the SBOM XML normalizer on a document with exactly 101 components
    reports components.total = 101 while components.details has length
    exactly 100; in general the component detail list is capped at 100 and
    the vulnerability detail list at 50, while the totals reflect the full
    uncapped element sets. -/
theorem C7_detail_caps :
    parse_sbom_report (.xmlDoc xml101) = .ok (parse_sbom_xml xml101) ∧
    (parse_sbom_xml xml101).components.total = 101 ∧
    ((parse_sbom_xml xml101).components.details.getD []).length = 100 ∧
    (∀ x, ((parse_sbom_xml x).components.details.getD []).length =
        min (parse_sbom_xml x).components.total 100 ∧
      ((parse_sbom_xml x).vulnerabilities.details.getD []).length =
        min (parse_sbom_xml x).vulnerabilities.total 50) := by
  refine ⟨by decide, by decide, by decide, fun x => ⟨?_, ?_⟩⟩
  · have hf := (xmlCompLoop_facts
      ((sbomXmlComponents (detectNs x) x).take 100) (detectNs x) [] []).2
    have h1 : (parse_sbom_xml x).components.details.getD [] =
        (xmlCompLoop (detectNs x) [] []
          ((sbomXmlComponents (detectNs x) x).take 100)).2.2 := rfl
    have h2 : (parse_sbom_xml x).components.total =
        (sbomXmlComponents (detectNs x) x).length := rfl
    rw [h1, h2, hf, List.length_take]
    omega
  · have hf := (xmlVulnLoop_facts
      ((sbomXmlVulns (detectNs x) x).take 50) (detectNs x) Sev6.zero).2
    have h1 : (parse_sbom_xml x).vulnerabilities.details.getD [] =
        (xmlVulnLoop (detectNs x) Sev6.zero
          ((sbomXmlVulns (detectNs x) x).take 50)).2 := rfl
    have h2 : (parse_sbom_xml x).vulnerabilities.total =
        (sbomXmlVulns (detectNs x) x).length := rfl
    rw [h1, h2, hf, List.length_take]
    omega
